import Mathlib

/-!
Shallow embedding of the Flink operator's Converter
(`controllers/flinkcluster_converter.go`) and Observer
(`controllers/flinkcluster_observer.go`).

Conventions of the embedding:
* Go pointers that may be nil are `Option`; dereferencing a nil pointer is
  modelled by the `ConvResult.panicked` outcome.
* Go `string`-typed open enums (cluster lifecycle state, access scope,
  service type, pod phase) are plain `String`s, compared exactly as the Go
  code compares them.
* Go maps used only as label sets are kept as association lists in the
  literal's source order; the free-form `flinkProperties` map is modelled as
  the sequence of entries that Go's `range` yields (Go's map iteration order
  is unspecified, so two iterations of the same map may yield different
  sequences; a permutation of the list denotes the same map).
* Kubernetes API types (external collaborators) are modelled with exactly the
  fields the source reads or writes; payload fields the source only copies
  through (resources, volumes, mounts, sidecars, ...) are carried as opaque
  strings or lists.
-/

set_option autoImplicit false

/-- Outcome of running a piece of Go code that can panic: either the value it
returns, or the panic it aborts the process with (Go has no way to return an
error from these functions; a panic is a process abort, not a returned
error). -/
inductive ConvResult (α : Type) where
  | ok (value : α) : ConvResult α
  | panicked (msg : String) : ConvResult α
  deriving DecidableEq, Repr

/-- `true` iff the computation returned normally. -/
def ConvResult.isOk {α : Type} : ConvResult α → Bool
  | .ok _ => true
  | .panicked _ => false

/-- `true` iff the computation aborted with a panic. -/
def ConvResult.isPanicked {α : Type} : ConvResult α → Bool
  | .ok _ => false
  | .panicked _ => true

/-- metav1.OwnerReference, fields set by `toOwnerReference`. -/
structure OwnerReference where
  apiVersion : String := ""
  kind : String := ""
  name : String := ""
  uid : String := ""
  controller : Option Bool := none
  blockOwnerDeletion : Option Bool := none
  deriving DecidableEq, Repr

/-- metav1.ObjectMeta, restricted to the fields the source uses.
`ns` is the source's `Namespace` field (`namespace` is a Lean keyword). -/
structure ObjectMeta where
  ns : String := ""
  name : String := ""
  ownerReferences : List OwnerReference := []
  labels : List (String × String) := []
  annotations : List (String × String) := []
  deriving DecidableEq, Repr

/-- corev1.ContainerPort (name + port number). -/
structure ContainerPort where
  name : String
  containerPort : Int
  deriving DecidableEq, Repr

/-- corev1.ResourceFieldSelector; the divisor is kept as the literal string
passed to `resource.MustParse`. -/
structure ResourceFieldSelector where
  containerName : String
  resource : String
  divisor : String
  deriving DecidableEq, Repr

/-- corev1.EnvVarSource, restricted to the resourceFieldRef the source uses. -/
structure EnvVarSource where
  resourceFieldRef : Option ResourceFieldSelector := none
  deriving DecidableEq, Repr

/-- corev1.EnvVar. -/
structure EnvVar where
  name : String
  value : String := ""
  valueFrom : Option EnvVarSource := none
  deriving DecidableEq, Repr

/-- corev1.Container, restricted to the fields the source sets.  Resource
requirements, volume mounts and volumes are opaque payloads the converter
copies through unchanged. -/
structure Container where
  name : String := ""
  image : String := ""
  imagePullPolicy : String := ""
  args : List String := []
  ports : List ContainerPort := []
  resources : List (String × String) := []
  env : List EnvVar := []
  volumeMounts : List String := []
  deriving DecidableEq, Repr

/-- corev1.PodSpec, restricted to the fields the source sets. -/
structure PodSpec where
  containers : List Container := []
  volumes : List String := []
  nodeSelector : List (String × String) := []
  imagePullSecrets : List String := []
  restartPolicy : String := ""
  deriving DecidableEq, Repr

/-- corev1.PodTemplateSpec. -/
structure PodTemplateSpec where
  metadata : ObjectMeta := {}
  spec : PodSpec := {}
  deriving DecidableEq, Repr

/-- appsv1.DeploymentSpec; the selector is kept as its MatchLabels map. -/
structure DeploymentSpec where
  replicas : Option Int := none
  selector : List (String × String) := []
  template : PodTemplateSpec := {}
  deriving DecidableEq, Repr

/-- appsv1.Deployment. -/
structure Deployment where
  metadata : ObjectMeta := {}
  spec : DeploymentSpec := {}
  deriving DecidableEq, Repr

/-- corev1.ServicePort; the target port is the named-port string the source
builds with `intstr.FromString`. -/
structure ServicePort where
  name : String
  port : Int
  targetPort : String
  deriving DecidableEq, Repr

/-- corev1.ServiceSpec, restricted to the fields the source sets.
`serviceType` is the source's `Type` field (string-typed in the API). -/
structure ServiceSpec where
  selector : List (String × String) := []
  ports : List ServicePort := []
  serviceType : String := ""
  deriving DecidableEq, Repr

/-- corev1.Service. -/
structure Service where
  metadata : ObjectMeta := {}
  spec : ServiceSpec := {}
  deriving DecidableEq, Repr

/-- batchv1.JobSpec, restricted to the template the source sets. -/
structure BatchJobSpec where
  template : PodTemplateSpec := {}
  deriving DecidableEq, Repr

/-- batchv1.Job. -/
structure BatchJob where
  metadata : ObjectMeta := {}
  spec : BatchJobSpec := {}
  deriving DecidableEq, Repr

/-- corev1.PodStatus, restricted to the phase the source reads. -/
structure PodStatus where
  phase : String := ""
  deriving DecidableEq, Repr

/-- corev1.Pod, restricted to the fields the source reads. -/
structure Pod where
  metadata : ObjectMeta := {}
  status : PodStatus := {}
  deriving DecidableEq, Repr

/-- JobManager port set of the FlinkCluster API (`Ports` struct of the
JobManagerSpec); each port is a nilable pointer in the API. -/
structure JobManagerPorts where
  rpc : Option Int := none
  blob : Option Int := none
  query : Option Int := none
  ui : Option Int := none
  deriving DecidableEq, Repr

/-- TaskManager port set of the FlinkCluster API. -/
structure TaskManagerPorts where
  data : Option Int := none
  rpc : Option Int := none
  query : Option Int := none
  deriving DecidableEq, Repr

/-- ImageSpec of the FlinkCluster API (fields the converter reads). -/
structure ImageSpec where
  name : String := ""
  pullPolicy : String := ""
  pullSecrets : List String := []
  deriving DecidableEq, Repr

/-- JobManagerSpec of the FlinkCluster API (fields the converter reads). -/
structure JobManagerSpec where
  replicas : Option Int := none
  ports : JobManagerPorts := {}
  accessScope : String := ""
  resources : List (String × String) := []
  mounts : List String := []
  volumes : List String := []
  nodeSelector : List (String × String) := []
  deriving DecidableEq, Repr

/-- TaskManagerSpec of the FlinkCluster API (fields the converter reads). -/
structure TaskManagerSpec where
  replicas : Int := 0
  ports : TaskManagerPorts := {}
  resources : List (String × String) := []
  sidecars : List Container := []
  mounts : List String := []
  volumes : List String := []
  nodeSelector : List (String × String) := []
  deriving DecidableEq, Repr

/-- JobSpec of the FlinkCluster API (fields the converter reads). -/
structure JobSpec where
  jarFile : String := ""
  className : Option String := none
  args : List String := []
  savepoint : Option String := none
  allowNonRestoredState : Option Bool := none
  parallelism : Option Int := none
  noLoggingToStdout : Option Bool := none
  restartPolicy : Option String := none
  mounts : List String := []
  volumes : List String := []
  deriving DecidableEq, Repr

/-- FlinkClusterSpec (fields the converter and observer read).
`flinkProperties` is the free-form property map, represented as the entry
sequence a Go `range` iteration yields (see the module docstring). -/
structure FlinkClusterSpec where
  imageSpec : ImageSpec := {}
  jobManagerSpec : JobManagerSpec := {}
  taskManagerSpec : TaskManagerSpec := {}
  jobSpec : Option JobSpec := none
  flinkProperties : List (String × String) := []
  envVars : List EnvVar := []
  deriving DecidableEq, Repr

/-- Status.Components.Job of the FlinkCluster API (field the observer reads). -/
structure JobComponentStatus where
  id : String := ""
  deriving DecidableEq, Repr

/-- FlinkClusterStatus (fields the converter and observer read).
`state` is the persisted lifecycle phase string. -/
structure FlinkClusterStatus where
  state : String := ""
  componentsJob : Option JobComponentStatus := none
  deriving DecidableEq, Repr

/-- The FlinkCluster custom resource. -/
structure FlinkCluster where
  apiVersion : String := ""
  kind : String := ""
  metadata : ObjectMeta := {}
  uid : String := ""
  spec : FlinkClusterSpec := {}
  status : FlinkClusterStatus := {}
  deriving DecidableEq, Repr

namespace ClusterState

/-- Lifecycle phase constants of the FlinkCluster API package (the api
package is not under src/; the phase names follow the spec's enumeration). -/
def Stopping : String := "Stopping"

/-- Terminal stopped phase constant. -/
def Stopped : String := "Stopped"

end ClusterState

namespace AccessScope

/-- Access-scope constants of the FlinkCluster API package (the api package
is not under src/; the names follow the spec's enumeration). -/
def Cluster : String := "Cluster"

/-- VPC-internal access scope. -/
def VPC : String := "VPC"

/-- External access scope. -/
def External : String := "External"

end AccessScope

/-- corev1.ServiceTypeClusterIP. -/
def serviceTypeClusterIP : String := "ClusterIP"

/-- corev1.ServiceTypeLoadBalancer. -/
def serviceTypeLoadBalancer : String := "LoadBalancer"

/-- `_DesiredClusterState` of the converter: the desired state of a cluster;
every resource is independently nullable. -/
structure DesiredClusterState where
  jmDeployment : Option Deployment := none
  jmService : Option Service := none
  tmDeployment : Option Deployment := none
  job : Option BatchJob := none
  deriving DecidableEq, Repr

/-- Occurrence of `p` as a contiguous sublist, structurally on character
lists (kernel-reducible, unlike `String.splitOn`). -/
def listContainsSub (p : List Char) : List Char → Bool
  | [] => p.isEmpty
  | c :: rest => if p.isPrefixOf (c :: rest) then true else listContainsSub p rest

/-- Go `strings.Contains s sub`. -/
def stringsContains (s sub : String) : Bool :=
  listContainsSub sub.data s.data

/-- Go `strings.Split` with a non-empty separator, on character lists; the
fuel argument (instantiated with the list's length) only makes the recursion
structural, every step consumes at least one character. -/
def splitListAux (sep : List Char) : Nat → List Char → List Char → List (List Char)
  | _, [], acc => [acc.reverse]
  | 0, l, acc => [acc.reverse ++ l]
  | fuel + 1, c :: rest, acc =>
    if sep.isPrefixOf (c :: rest) then
      acc.reverse :: splitListAux sep fuel (List.drop sep.length (c :: rest)) []
    else
      splitListAux sep fuel rest (c :: acc)

/-- Go `strings.Split s sep` (for the non-empty separator `"/"` the source
uses): the substrings between consecutive separator occurrences, including
empty parts. -/
def stringsSplit (s sep : String) : List String :=
  (splitListAux sep.data s.data.length s.data []).map String.mk

/-- `toOwnerReference`: converts the FlinkCluster as owner reference for its
child resources. -/
def toOwnerReference (flinkCluster : FlinkCluster) : OwnerReference :=
  { apiVersion := flinkCluster.apiVersion
    kind := flinkCluster.kind
    name := flinkCluster.metadata.name
    uid := flinkCluster.uid
    controller := some true
    blockOwnerDeletion := some false }

/-- `getJobManagerDeploymentName`. -/
def getJobManagerDeploymentName (clusterName : String) : String :=
  clusterName ++ "-jobmanager"

/-- `getJobManagerServiceName`. -/
def getJobManagerServiceName (clusterName : String) : String :=
  clusterName ++ "-jobmanager"

/-- `getTaskManagerDeploymentName`. -/
def getTaskManagerDeploymentName (clusterName : String) : String :=
  clusterName ++ "-taskmanager"

/-- `getJobName`. -/
def getJobName (clusterName : String) : String :=
  clusterName ++ "-job"

/-- `getFlinkProperties`: serializes the property map by appending
`"<key>: <value>\n"` for every entry, in the order the iteration yields the
entries.  The Go source ranges over a `map[string]string`, whose iteration
order is unspecified and deliberately randomized by the runtime, so the
argument is the realized iteration sequence (a permutation of the map's
entries). -/
def getFlinkProperties (properties : List (String × String)) : String :=
  properties.foldl (fun acc kv => acc ++ kv.1 ++ ": " ++ kv.2 ++ "\n") ""

/-- `true` iff the persisted lifecycle phase is Stopping or Stopped — the
guard the converter's deployment/service getters start with. -/
def stopPhase (flinkCluster : FlinkCluster) : Prop :=
  flinkCluster.status.state = ClusterState.Stopping ∨
    flinkCluster.status.state = ClusterState.Stopped

instance (flinkCluster : FlinkCluster) : Decidable (stopPhase flinkCluster) := by
  unfold stopPhase; infer_instance

/-- `getDesiredJobManagerDeployment`: desired JobManager deployment from the
FlinkCluster spec; `none` when the phase is Stopping/Stopped.  The four
JobManager ports are nilable pointers the source dereferences
unconditionally on the non-stopped path. -/
def getDesiredJobManagerDeployment (flinkCluster : FlinkCluster) :
    ConvResult (Option Deployment) :=
  if stopPhase flinkCluster then .ok none
  else
    match flinkCluster.spec.jobManagerSpec.ports.rpc,
        flinkCluster.spec.jobManagerSpec.ports.blob,
        flinkCluster.spec.jobManagerSpec.ports.query,
        flinkCluster.spec.jobManagerSpec.ports.ui with
    | some rpc, some blob, some query, some ui =>
      let clusterNamespace := flinkCluster.metadata.ns
      let clusterName := flinkCluster.metadata.name
      let imageSpec := flinkCluster.spec.imageSpec
      let jobManagerSpec := flinkCluster.spec.jobManagerSpec
      let rpcPort : ContainerPort := { name := "rpc", containerPort := rpc }
      let blobPort : ContainerPort := { name := "blob", containerPort := blob }
      let queryPort : ContainerPort := { name := "query", containerPort := query }
      let uiPort : ContainerPort := { name := "ui", containerPort := ui }
      let jobManagerDeploymentName := getJobManagerDeploymentName clusterName
      let labels : List (String × String) :=
        [("cluster", clusterName), ("app", "flink"), ("component", "jobmanager")]
      let envVars : List EnvVar :=
        [{ name := "JOB_MANAGER_RPC_ADDRESS", value := jobManagerDeploymentName },
         { name := "JOB_MANAGER_CPU_LIMIT",
           valueFrom := some { resourceFieldRef := some { containerName := "jobmanager", resource := "limits.cpu", divisor := "1m" } } },
         { name := "JOB_MANAGER_MEMORY_LIMIT",
           valueFrom := some { resourceFieldRef := some { containerName := "jobmanager", resource := "limits.memory", divisor := "1Mi" } } },
         { name := "FLINK_PROPERTIES",
           value := getFlinkProperties flinkCluster.spec.flinkProperties }]
      let envVars := envVars ++ flinkCluster.spec.envVars
      .ok (some
        { metadata :=
            { ns := clusterNamespace
              name := jobManagerDeploymentName
              ownerReferences := [toOwnerReference flinkCluster]
              labels := labels }
          spec :=
            { replicas := jobManagerSpec.replicas
              selector := labels
              template :=
                { metadata := { labels := labels }
                  spec :=
                    { containers :=
                        [{ name := "jobmanager"
                           image := imageSpec.name
                           imagePullPolicy := imageSpec.pullPolicy
                           args := ["jobmanager"]
                           ports := [rpcPort, blobPort, queryPort, uiPort]
                           resources := jobManagerSpec.resources
                           env := envVars
                           volumeMounts := jobManagerSpec.mounts }]
                      volumes := jobManagerSpec.volumes
                      nodeSelector := jobManagerSpec.nodeSelector
                      imagePullSecrets := imageSpec.pullSecrets } } } })
    | _, _, _, _ => .panicked "nil pointer dereference: JobManagerSpec.Ports"

/-- `getDesiredJobManagerService`: desired JobManager service from a cluster
spec; `none` when the phase is Stopping/Stopped.  The access-scope switch
panics on an unrecognized value (the source's `default: panic(...)`). -/
def getDesiredJobManagerService (flinkCluster : FlinkCluster) :
    ConvResult (Option Service) :=
  if stopPhase flinkCluster then .ok none
  else
    match flinkCluster.spec.jobManagerSpec.ports.rpc,
        flinkCluster.spec.jobManagerSpec.ports.blob,
        flinkCluster.spec.jobManagerSpec.ports.query,
        flinkCluster.spec.jobManagerSpec.ports.ui with
    | some rpc, some blob, some query, some ui =>
      let clusterNamespace := flinkCluster.metadata.ns
      let clusterName := flinkCluster.metadata.name
      let jobManagerSpec := flinkCluster.spec.jobManagerSpec
      let rpcPort : ServicePort := { name := "rpc", port := rpc, targetPort := "rpc" }
      let blobPort : ServicePort := { name := "blob", port := blob, targetPort := "blob" }
      let queryPort : ServicePort := { name := "query", port := query, targetPort := "query" }
      let uiPort : ServicePort := { name := "ui", port := ui, targetPort := "ui" }
      let jobManagerServiceName := getJobManagerServiceName clusterName
      let labels : List (String × String) :=
        [("cluster", clusterName), ("app", "flink"), ("component", "jobmanager")]
      let jobManagerService : Service :=
        { metadata :=
            { ns := clusterNamespace
              name := jobManagerServiceName
              ownerReferences := [toOwnerReference flinkCluster]
              labels := labels }
          spec :=
            { selector := labels
              ports := [rpcPort, blobPort, queryPort, uiPort] } }
      if jobManagerSpec.accessScope = AccessScope.Cluster then
        .ok (some { jobManagerService with
          spec := { jobManagerService.spec with serviceType := serviceTypeClusterIP } })
      else if jobManagerSpec.accessScope = AccessScope.VPC then
        .ok (some { jobManagerService with
          spec := { jobManagerService.spec with serviceType := serviceTypeLoadBalancer }
          metadata := { jobManagerService.metadata with
            annotations := [("cloud.google.com/load-balancer-type", "Internal")] } })
      else if jobManagerSpec.accessScope = AccessScope.External then
        .ok (some { jobManagerService with
          spec := { jobManagerService.spec with serviceType := serviceTypeLoadBalancer } })
      else
        .panicked ("Unknown service access cope: " ++ jobManagerSpec.accessScope)
    | _, _, _, _ => .panicked "nil pointer dereference: JobManagerSpec.Ports"

/-- `getDesiredTaskManagerDeployment`: desired TaskManager deployment from a
cluster spec; `none` when the phase is Stopping/Stopped.  Sidecar containers
are appended after the primary container. -/
def getDesiredTaskManagerDeployment (flinkCluster : FlinkCluster) :
    ConvResult (Option Deployment) :=
  if stopPhase flinkCluster then .ok none
  else
    match flinkCluster.spec.taskManagerSpec.ports.data,
        flinkCluster.spec.taskManagerSpec.ports.rpc,
        flinkCluster.spec.taskManagerSpec.ports.query with
    | some dataP, some rpc, some query =>
      let clusterNamespace := flinkCluster.metadata.ns
      let clusterName := flinkCluster.metadata.name
      let imageSpec := flinkCluster.spec.imageSpec
      let taskManagerSpec := flinkCluster.spec.taskManagerSpec
      let dataPort : ContainerPort := { name := "data", containerPort := dataP }
      let rpcPort : ContainerPort := { name := "rpc", containerPort := rpc }
      let queryPort : ContainerPort := { name := "query", containerPort := query }
      let taskManagerDeploymentName := getTaskManagerDeploymentName clusterName
      let jobManagerDeploymentName := getJobManagerDeploymentName clusterName
      let labels : List (String × String) :=
        [("cluster", clusterName), ("app", "flink"), ("component", "taskmanager")]
      let envVars : List EnvVar :=
        [{ name := "JOB_MANAGER_RPC_ADDRESS", value := jobManagerDeploymentName },
         { name := "TASK_MANAGER_CPU_LIMIT",
           valueFrom := some { resourceFieldRef := some { containerName := "taskmanager", resource := "limits.cpu", divisor := "1m" } } },
         { name := "TASK_MANAGER_MEMORY_LIMIT",
           valueFrom := some { resourceFieldRef := some { containerName := "taskmanager", resource := "limits.memory", divisor := "1Mi" } } },
         { name := "FLINK_PROPERTIES",
           value := getFlinkProperties flinkCluster.spec.flinkProperties }]
      let envVars := envVars ++ flinkCluster.spec.envVars
      let containers : List Container :=
        [{ name := "taskmanager"
           image := imageSpec.name
           imagePullPolicy := imageSpec.pullPolicy
           args := ["taskmanager"]
           ports := [dataPort, rpcPort, queryPort]
           resources := taskManagerSpec.resources
           env := envVars
           volumeMounts := taskManagerSpec.mounts }]
      let containers := containers ++ taskManagerSpec.sidecars
      .ok (some
        { metadata :=
            { ns := clusterNamespace
              name := taskManagerDeploymentName
              ownerReferences := [toOwnerReference flinkCluster]
              labels := labels }
          spec :=
            { replicas := some taskManagerSpec.replicas
              selector := labels
              template :=
                { metadata := { labels := labels }
                  spec :=
                    { containers := containers
                      volumes := taskManagerSpec.volumes
                      nodeSelector := taskManagerSpec.nodeSelector
                      imagePullSecrets := imageSpec.pullSecrets } } } })
    | _, _, _ => .panicked "nil pointer dereference: TaskManagerSpec.Ports"

/-- `getDesiredJob`: desired job resource from a cluster spec; `none` when no
JobSpec is present.  Note: unlike the deployment/service getters, this
function has no Stopping/Stopped guard.  It dereferences the JobManager UI
port (for the `--jobmanager` address) and the job's restart policy. -/
def getDesiredJob (flinkCluster : FlinkCluster) : ConvResult (Option BatchJob) :=
  match flinkCluster.spec.jobSpec with
  | none => .ok none
  | some jobSpec =>
    match flinkCluster.spec.jobManagerSpec.ports.ui with
    | none => .panicked "nil pointer dereference: JobManagerSpec.Ports.UI"
    | some ui =>
      let imageSpec := flinkCluster.spec.imageSpec
      let clusterNamespace := flinkCluster.metadata.ns
      let clusterName := flinkCluster.metadata.name
      let jobName := getJobName clusterName
      let jobManagerServiceName := clusterName ++ "-jobmanager"
      let jobManagerAddress := jobManagerServiceName ++ ":" ++ toString ui
      let labels : List (String × String) :=
        [("cluster", clusterName), ("app", "flink")]
      let jobArgs : List String := ["./bin/flink", "run"]
      let jobArgs := jobArgs ++ ["--jobmanager", jobManagerAddress]
      let jobArgs := jobArgs ++
        (match jobSpec.className with
         | some cn => ["--class", cn]
         | none => [])
      let jobArgs := jobArgs ++
        (match jobSpec.savepoint with
         | some sp => ["--fromSavepoint", sp]
         | none => [])
      let jobArgs := jobArgs ++
        (if jobSpec.allowNonRestoredState = some true
         then ["--allowNonRestoredState"] else [])
      let jobArgs := jobArgs ++
        (match jobSpec.parallelism with
         | some p => ["--parallelism", toString p]
         | none => [])
      let jobArgs := jobArgs ++
        (if jobSpec.noLoggingToStdout = some true
         then ["--sysoutLogging"] else [])
      let envVars : List EnvVar := [] ++ flinkCluster.spec.envVars
      -- Remote JAR: put the URI in FLINK_JOB_JAR_URI and rewrite the path to
      -- the local staging path (the container entrypoint downloads it).
      let jarPath := jobSpec.jarFile
      let (jarPath, envVars) :=
        if stringsContains jobSpec.jarFile "://" then
          let parts := stringsSplit jobSpec.jarFile "/"
          ("/opt/flink/job/" ++ parts.getLast!,
           envVars ++ [{ name := "FLINK_JOB_JAR_URI", value := jobSpec.jarFile }])
        else (jarPath, envVars)
      let jobArgs := jobArgs ++ [jarPath]
      let jobArgs := jobArgs ++ jobSpec.args
      match jobSpec.restartPolicy with
      | none => .panicked "nil pointer dereference: JobSpec.RestartPolicy"
      | some restartPolicy =>
        .ok (some
          { metadata :=
              { ns := clusterNamespace
                name := jobName
                ownerReferences := [toOwnerReference flinkCluster]
                labels := labels }
            spec :=
              { template :=
                  { metadata := { labels := labels }
                    spec :=
                      { containers :=
                          [{ name := "main"
                             image := imageSpec.name
                             imagePullPolicy := imageSpec.pullPolicy
                             args := jobArgs
                             env := envVars
                             volumeMounts := jobSpec.mounts }]
                        restartPolicy := restartPolicy
                        volumes := jobSpec.volumes
                        imagePullSecrets := imageSpec.pullSecrets } } } })

/-- `getDesiredClusterState`: the desired state of a cluster; everything is
`none` when the cluster resource has been deleted.  A panic in any of the
four getters aborts the whole computation (Go evaluates the struct literal's
fields in source order). -/
def getDesiredClusterState (cluster : Option FlinkCluster) :
    ConvResult DesiredClusterState :=
  match cluster with
  | none => .ok {}
  | some cluster =>
    match getDesiredJobManagerDeployment cluster with
    | .panicked msg => .panicked msg
    | .ok jmDeployment =>
      match getDesiredJobManagerService cluster with
      | .panicked msg => .panicked msg
      | .ok jmService =>
        match getDesiredTaskManagerDeployment cluster with
        | .panicked msg => .panicked msg
        | .ok tmDeployment =>
          match getDesiredJob cluster with
          | .panicked msg => .panicked msg
          | .ok job =>
            .ok { jmDeployment := jmDeployment, jmService := jmService,
                  tmDeployment := tmDeployment, job := job }

/-- Result of one Remote State Gateway lookup, as the observer's
`client.IgnoreNotFound` distinguishes it: the resource, a NotFound outcome,
or any other error. -/
inductive LookupResult (α : Type) where
  | found (value : α) : LookupResult α
  | notFound : LookupResult α
  | failed (msg : String) : LookupResult α
  deriving DecidableEq, Repr

/-- `true` unless the lookup failed with a non-NotFound error. -/
def LookupResult.benign {α : Type} : LookupResult α → Bool
  | .failed _ => false
  | _ => true

/-- `_ObservedClusterState`: observed state of a cluster; every field is
absent until the corresponding lookup succeeds. -/
structure ObservedClusterState where
  cluster : Option FlinkCluster := none
  jmDeployment : Option Deployment := none
  jmService : Option Service := none
  tmDeployment : Option Deployment := none
  job : Option BatchJob := none
  jobPod : Option Pod := none
  flinkJobID : Option String := none
  deriving DecidableEq, Repr

/-- The zero-valued `_ObservedClusterState` the reconciler hands to
`observe`. -/
def emptyObserved : ObservedClusterState := {}

/-- The environment one observation pass runs against: the outcome of each
Remote State Gateway lookup the observer can issue, plus the Job-Status
Prober modelled by its result (`flinkAPI url` is what `getFlinkJobID url`
would return: the first job's ID, or `none` on any network/parse failure or
empty job list). -/
structure ObserverEnv where
  cluster : LookupResult FlinkCluster
  jmDeployment : LookupResult Deployment
  jmService : LookupResult Service
  tmDeployment : LookupResult Deployment
  job : LookupResult BatchJob
  jobPods : LookupResult (List Pod)
  flinkAPI : String → Option String

/-- The tail of `getFlinkJobID`'s use in `observeJob`: if the probe returned
a job ID, record it in the observed state (Go's
`if flinkJobID != nil { observedState.flinkJobID = flinkJobID }`). -/
def applyFlinkJobID (s : ObservedClusterState) (r : Option String) :
    ObservedClusterState :=
  match r with
  | some fid => { s with flinkJobID := some fid }
  | none => s

/-- `observeJob` lines 189-218 ("Flink job ID"): reuse the ID persisted in
`Status.Components.Job` when non-empty; otherwise probe the Flink REST API,
but only when the job resource was observed, the single job pod's phase is
neither Pending nor Unknown, and the JobManager service was observed.  The
returned Bool records whether the prober was invoked.  Building the probe
URL dereferences the JobManager UI port pointer. -/
def observeFlinkJobIDStep (env : ObserverEnv) (cl : FlinkCluster)
    (s : ObservedClusterState) :
    ConvResult (ObservedClusterState × Option String × Bool) :=
  let probePart : ConvResult (ObservedClusterState × Option String × Bool) :=
    match s.job with
    | none => .ok (s, none, false)
    | some _ =>
      match s.jobPod with
      | none => .ok (s, none, false)
      | some pod =>
        if pod.status.phase ≠ "Pending" ∧ pod.status.phase ≠ "Unknown" then
          match s.jmService with
          | some svc =>
            match cl.spec.jobManagerSpec.ports.ui with
            | some uiPort =>
              let url := "http://" ++ svc.metadata.name ++ "." ++ svc.metadata.ns
                ++ ".svc.cluster.local:" ++ toString uiPort ++ "/jobs"
              .ok (applyFlinkJobID s (env.flinkAPI url), none, true)
            | none => .panicked "nil pointer dereference: JobManagerSpec.Ports.UI"
          | none => .ok (s, none, false)
        else .ok (s, none, false)
    
  match cl.status.componentsJob with
  | some jobStatus =>
    if jobStatus.id.length > 0 then
      .ok ({ s with flinkJobID := some jobStatus.id }, none, false)
    else probePart
  | none => probePart

/-- `observeJob` lines 166-187 ("Job pod"): list the job pods; NotFound means
no pods; exactly one pod is recorded; two or more pods is an invariant
violation returned as an error. -/
def observeJobPodsStep (env : ObserverEnv) (cl : FlinkCluster)
    (s : ObservedClusterState) :
    ConvResult (ObservedClusterState × Option String × Bool) :=
  match env.jobPods with
  | .failed msg => .ok (s, some msg, false)
  | .notFound => observeFlinkJobIDStep env cl s
  | .found items =>
    match items with
    | [pod] => observeFlinkJobIDStep env cl { s with jobPod := some pod }
    | [] => observeFlinkJobIDStep env cl s
    | _ => .ok (s, some "Exactly one job pod is expected, but found more", false)

/-- `observeJob` lines 140-221: early return when the cluster has been
deleted or is a session cluster (no JobSpec); then the job resource lookup,
the pod listing, and the Flink job ID step. -/
def observeJob (env : ObserverEnv) (s : ObservedClusterState) :
    ConvResult (ObservedClusterState × Option String × Bool) :=
  match s.cluster with
  | none => .ok (s, none, false)
  | some cl =>
    match cl.spec.jobSpec with
    | none => .ok (s, none, false)
    | some _ =>
      match env.job with
      | .failed msg => .ok (s, some msg, false)
      | .notFound => observeJobPodsStep env cl s
      | .found j => observeJobPodsStep env cl { s with job := some j }

/-- `observe` lines 119-132 ("TaskManager deployment"), then the job part. -/
def observeTmDeploymentStep (env : ObserverEnv) (s : ObservedClusterState) :
    ConvResult (ObservedClusterState × Option String × Bool) :=
  match env.tmDeployment with
  | .failed msg => .ok (s, some msg, false)
  | .notFound => observeJob env s
  | .found d => observeJob env { s with tmDeployment := some d }

/-- `observe` lines 104-117 ("JobManager service"). -/
def observeJmServiceStep (env : ObserverEnv) (s : ObservedClusterState) :
    ConvResult (ObservedClusterState × Option String × Bool) :=
  match env.jmService with
  | .failed msg => .ok (s, some msg, false)
  | .notFound => observeTmDeploymentStep env s
  | .found svc => observeTmDeploymentStep env { s with jmService := some svc }

/-- `observe` lines 89-102 ("JobManager deployment"). -/
def observeJmDeploymentStep (env : ObserverEnv) (s : ObservedClusterState) :
    ConvResult (ObservedClusterState × Option String × Bool) :=
  match env.jmDeployment with
  | .failed msg => .ok (s, some msg, false)
  | .notFound => observeJmServiceStep env s
  | .found d => observeJmServiceStep env { s with jmDeployment := some d }

/-- `observe`: one observation pass.  Each lookup's NotFound outcome leaves
the corresponding field absent and the pass continues; any other lookup
error returns immediately (with the state observed so far).  The result is
the final observed state, the returned error (if any), and whether the
Job-Status Prober was invoked. -/
def observe (env : ObserverEnv) (s : ObservedClusterState) :
    ConvResult (ObservedClusterState × Option String × Bool) :=
  match env.cluster with
  | .failed msg => .ok (s, some msg, false)
  | .notFound => observeJmDeploymentStep env s
  | .found c => observeJmDeploymentStep env { s with cluster := some c }

/-- Observed state of a finished pass (`none` when the pass panicked). -/
def obsOut : ConvResult (ObservedClusterState × Option String × Bool) →
    Option ObservedClusterState
  | .ok (s, _, _) => some s
  | .panicked _ => none

/-- Error returned by a finished pass. -/
def obsErr : ConvResult (ObservedClusterState × Option String × Bool) →
    Option String
  | .ok (_, e, _) => e
  | .panicked _ => none

/-- Whether a finished pass invoked the Job-Status Prober. -/
def obsProbed : ConvResult (ObservedClusterState × Option String × Bool) → Bool
  | .ok (_, _, b) => b
  | .panicked _ => false

/-- `true` iff the pass finished without a panic and returned no error. -/
def obsOk (r : ConvResult (ObservedClusterState × Option String × Bool)) : Bool :=
  match r with
  | .ok (_, none, _) => true
  | _ => false

/-- The job pod recorded by a finished pass. -/
def obsJobPod (r : ConvResult (ObservedClusterState × Option String × Bool)) :
    Option Pod :=
  match r with
  | .ok (s, _, _) => s.jobPod
  | .panicked _ => none

/-- The job ID persisted in a cluster's status, when non-empty — the value
`observeJob` reuses without probing. -/
def recordedJobID (cl : FlinkCluster) : Option String :=
  match cl.status.componentsJob with
  | some jobStatus => if jobStatus.id.length > 0 then some jobStatus.id else none
  | none => none

/-- The JobManager port set with the operator's default port numbers filled
in (the example manifest sets only `ui: 8081`; the remaining values are
supplied by defaulting outside the converter). -/
def examplePorts : JobManagerPorts :=
  { rpc := some 6123, blob := some 6124, query := some 6125, ui := some 8081 }

/-- TaskManager port set with defaults filled in. -/
def exampleTmPorts : TaskManagerPorts :=
  { data := some 6121, rpc := some 6122, query := some 6125 }

/-- The JobSpec of the repository's example manifest
(`flinkjobcluster-sample`), with a restart policy filled in. -/
def exampleJobSpec : JobSpec :=
  { jarFile := "./examples/batch/WordCount.jar"
    className := some "org.apache.flink.examples.java.wordcount.WordCount"
    args := ["--input", "./README.txt"]
    parallelism := some 2
    restartPolicy := some "OnFailure" }

/-- The repository's example cluster (`flinkjobcluster-sample`) with ports
defaulted, in the Running phase. -/
def exampleCluster : FlinkCluster :=
  { metadata := { ns := "default", name := "flinkjobcluster-sample" }
    spec :=
      { imageSpec := { name := "flink:1.8.1" }
        jobManagerSpec := { ports := examplePorts, accessScope := AccessScope.Cluster }
        taskManagerSpec := { replicas := 2, ports := exampleTmPorts }
        jobSpec := some exampleJobSpec
        flinkProperties := [("taskmanager.numberOfTaskSlots", "1")] }
    status := { state := "Running" } }

/-- The example cluster after its persisted phase moved to Stopped, its
JobSpec still present. -/
def stoppedJobCluster : FlinkCluster :=
  { exampleCluster with status := { state := ClusterState.Stopped } }

/-- The example cluster with an unrecognized manager access-scope value. -/
def weirdScopeCluster : FlinkCluster :=
  { exampleCluster with spec :=
      { exampleCluster.spec with jobManagerSpec :=
          { exampleCluster.spec.jobManagerSpec with accessScope := "GalacticMesh" } } }

/-- A cluster in the Stopped phase with no JobSpec and every optional port
pointer unset. -/
def stoppedBareCluster : FlinkCluster :=
  { metadata := { ns := "default", name := "bare" }
    spec := { jobManagerSpec := { accessScope := AccessScope.Cluster } }
    status := { state := ClusterState.Stopped } }

/-- The example JobSpec with a remote (s3) jar reference. -/
def s3JobSpec : JobSpec :=
  { exampleJobSpec with jarFile := "s3://bucket/path/app.jar" }

/-- Spec of the example cluster with the remote jar substituted. -/
def s3JobClusterSpec : FlinkClusterSpec :=
  { exampleCluster.spec with jobSpec := some s3JobSpec }

/-- The example cluster with the remote jar substituted. -/
def s3JobCluster : FlinkCluster :=
  { exampleCluster with spec := s3JobClusterSpec }

/-- The example cluster with a two-entry property map, one iteration order. -/
def propsCluster1 : FlinkCluster :=
  { exampleCluster with spec :=
      { exampleCluster.spec with flinkProperties := [("a", "1"), ("b", "2")] } }

/-- The same cluster as `propsCluster1` — the same property map — with the
other iteration order. -/
def propsCluster2 : FlinkCluster :=
  { exampleCluster with spec :=
      { exampleCluster.spec with flinkProperties := [("b", "2"), ("a", "1")] } }

/-- The example cluster with a job ID recorded in its persisted status. -/
def recordedCluster : FlinkCluster :=
  { exampleCluster with status :=
      { state := "Running", componentsJob := some { id := "abc" } } }

/-- A cluster whose persisted status records a job ID although its spec no
longer declares a job. -/
def noJobSpecRecordedCluster : FlinkCluster :=
  { recordedCluster with spec := { recordedCluster.spec with jobSpec := none } }

/-- An example observed pod in the Running phase. -/
def examplePod : Pod :=
  { metadata := { ns := "default", name := "flinkjobcluster-sample-job-x" }
    status := { phase := "Running" } }

/-- An example observed JobManager service. -/
def exampleService : Service :=
  { metadata := { ns := "default", name := "flinkjobcluster-sample-jobmanager" } }

/-- An example observed job resource. -/
def exampleJobResource : BatchJob :=
  { metadata := { ns := "default", name := "flinkjobcluster-sample-job" } }

/-- Observation environment: every lookup is NotFound. -/
def envAllAbsent : ObserverEnv :=
  { cluster := .notFound, jmDeployment := .notFound, jmService := .notFound
    tmDeployment := .notFound, job := .notFound, jobPods := .notFound
    flinkAPI := fun _ => none }

/-- Observation environment: the cluster still records a job ID but its spec
no longer declares a job; everything else absent. -/
def envNoJobSpecRecorded : ObserverEnv :=
  { envAllAbsent with cluster := .found noJobSpecRecordedCluster }

/-- Observation environment: the example cluster with recorded job ID. -/
def envRecorded : ObserverEnv :=
  { envAllAbsent with cluster := .found recordedCluster }

/-- Observation environment where the job-pod list query returns two pods. -/
def envTwoPods : ObserverEnv :=
  { envAllAbsent with
      cluster := .found exampleCluster
      jmService := .found exampleService
      job := .found exampleJobResource
      jobPods := .found [examplePod, ({ examplePod with metadata := { ns := "default", name := "dup" } })] }

/-- `true` iff the desired state computation returned normally and its
desired job resource is non-null. -/
def desiredJobIsSome : ConvResult DesiredClusterState → Bool
  | .ok ds => ds.job.isSome
  | .panicked _ => false

/-- Service type of a desired-service computation that returned a service. -/
def serviceTypeOf : ConvResult (Option Service) → Option String
  | .ok (some svc) => some svc.spec.serviceType
  | _ => none

/-- Metadata annotations of a desired-service computation that returned a
service. -/
def serviceAnnotationsOf : ConvResult (Option Service) → Option (List (String × String))
  | .ok (some svc) => some svc.metadata.annotations
  | _ => none

/-- Argument list of the single container of a desired job. -/
def jobMainArgs : ConvResult (Option BatchJob) → Option (List String)
  | .ok (some j) =>
    match j.spec.template.spec.containers with
    | [c] => some c.args
    | _ => none
  | _ => none

/-- Environment of the single container of a desired job. -/
def jobMainEnv : ConvResult (Option BatchJob) → Option (List EnvVar)
  | .ok (some j) =>
    match j.spec.template.spec.containers with
    | [c] => some c.env
    | _ => none
  | _ => none

/-- The flinkJobID recorded by a finished observation pass. -/
def obsFlinkJobID : ConvResult (ObservedClusterState × Option String × Bool) →
    Option String
  | .ok (s, _, _) => s.flinkJobID
  | .panicked _ => none

/-- The submitted jar path as the spec (§4.2/§8) describes it: rewritten to
the fixed local staging path (final URI path segment) when the jar reference
contains a scheme separator, the original string otherwise. -/
def specJarPath (jarFile : String) : String :=
  if stringsContains jarFile "://" then
    "/opt/flink/job/" ++ (stringsSplit jarFile "/").getLast!
  else jarFile

/-- The submission argument sequence as the spec (§4.2/§8) describes it:
base command, manager address (host:port), `--class` if an entry class is
set, `--fromSavepoint` if a savepoint path is set, the
allow-non-restored-state flag if requested, `--parallelism` if set, the
logging-suppression flag if requested, then the jar path, then trailing user
arguments. -/
def specSubmitArgs (clusterName : String) (uiPort : Int) (js : JobSpec) :
    List String :=
  ["./bin/flink", "run", "--jobmanager", clusterName ++ "-jobmanager:" ++ toString uiPort]
    ++ (match js.className with
        | some cn => ["--class", cn]
        | none => [])
    ++ (match js.savepoint with
        | some sp => ["--fromSavepoint", sp]
        | none => [])
    ++ (if js.allowNonRestoredState = some true then ["--allowNonRestoredState"] else [])
    ++ (match js.parallelism with
        | some p => ["--parallelism", toString p]
        | none => [])
    ++ (if js.noLoggingToStdout = some true then ["--sysoutLogging"] else [])
    ++ [specJarPath js.jarFile]
    ++ js.args

/-- The resource a lookup observed, if any (`found` maps to present,
`notFound` and `failed` to absent). -/
def LookupResult.toOption {α : Type} : LookupResult α → Option α
  | .found a => some a
  | _ => none

/-- The observed state after the first four lookups of `observe` (cluster,
JobManager deployment, JobManager service, TaskManager deployment), when
none of them failed. -/
def preState (env : ObserverEnv) : ObservedClusterState :=
  { cluster := env.cluster.toOption
    jmDeployment := env.jmDeployment.toOption
    jmService := env.jmService.toOption
    tmDeployment := env.tmDeployment.toOption }

/-- `true` unless the job-pod list query answered with two or more pods. -/
def podsAtMostOne (env : ObserverEnv) : Bool :=
  match env.jobPods with
  | .found l => l.length ≤ 1
  | _ => true

/-- `true` unless the cluster lookup answered with a cluster whose JobManager
UI port pointer is unset (the pointer `observeJob` dereferences to build the
probe URL). -/
def uiPresent (env : ObserverEnv) : Bool :=
  match env.cluster with
  | .found c => c.spec.jobManagerSpec.ports.ui.isSome
  | _ => true

/-- The cluster recorded by a finished pass. -/
def obsCluster : ConvResult (ObservedClusterState × Option String × Bool) →
    Option FlinkCluster
  | .ok (s, _, _) => s.cluster
  | .panicked _ => none

/-- The JobManager deployment recorded by a finished pass. -/
def obsJmDeployment : ConvResult (ObservedClusterState × Option String × Bool) →
    Option Deployment
  | .ok (s, _, _) => s.jmDeployment
  | .panicked _ => none

/-- The JobManager service recorded by a finished pass. -/
def obsJmService : ConvResult (ObservedClusterState × Option String × Bool) →
    Option Service
  | .ok (s, _, _) => s.jmService
  | .panicked _ => none

/-- The TaskManager deployment recorded by a finished pass. -/
def obsTmDeployment : ConvResult (ObservedClusterState × Option String × Bool) →
    Option Deployment
  | .ok (s, _, _) => s.tmDeployment
  | .panicked _ => none

/-- The job resource recorded by a finished pass. -/
def obsJob : ConvResult (ObservedClusterState × Option String × Bool) →
    Option BatchJob
  | .ok (s, _, _) => s.job
  | .panicked _ => none

/-- C1 (counterexample): a cluster in the Stopped phase with a JobSpec still
present — `getDesiredClusterState` returns normally with a NON-null desired
job resource, because `getDesiredJob` has no Stopping/Stopped guard; the
claim says the desired job must be null in this phase. -/
theorem desiredJob_not_null_when_stopped :
    stoppedJobCluster.status.state = ClusterState.Stopped ∧
    stoppedJobCluster.spec.jobSpec.isSome = true ∧
    desiredJobIsSome (getDesiredClusterState (some stoppedJobCluster)) = true := by
  refine ⟨rfl, rfl, ?_⟩
  decide

/-- C1 (amended): when the persisted phase is Stopping or Stopped the desired
manager deployment, manager service and worker deployment are null, and when
the cluster resource is absent all four desired resources are null; the
desired job resource, however, is computed from the presence of a JobSpec
alone, so in the Stopping/Stopped phases it is null only when the JobSpec is
absent. -/
theorem phase_gating_amended (c : FlinkCluster) (h : stopPhase c) :
    getDesiredJobManagerDeployment c = .ok none ∧
    getDesiredJobManagerService c = .ok none ∧
    getDesiredTaskManagerDeployment c = .ok none ∧
    getDesiredClusterState none = .ok {} ∧
    (c.spec.jobSpec = none → getDesiredClusterState (some c) = .ok {}) := by
  have h1 : getDesiredJobManagerDeployment c = .ok none := by
    unfold getDesiredJobManagerDeployment; rw [if_pos h]
  have h2 : getDesiredJobManagerService c = .ok none := by
    unfold getDesiredJobManagerService; rw [if_pos h]
  have h3 : getDesiredTaskManagerDeployment c = .ok none := by
    unfold getDesiredTaskManagerDeployment; rw [if_pos h]
  refine ⟨h1, h2, h3, rfl, fun hjs => ?_⟩
  have h4 : getDesiredJob c = .ok none := by
    unfold getDesiredJob; rw [hjs]
  simp only [getDesiredClusterState, h1, h2, h3, h4]

/-- C1 (amended, witness): the amended phase gating at the concrete stopped
example cluster. -/
theorem phase_gating_amended_witness :
    getDesiredJobManagerDeployment stoppedJobCluster = .ok none ∧
    getDesiredJobManagerService stoppedJobCluster = .ok none ∧
    getDesiredTaskManagerDeployment stoppedJobCluster = .ok none ∧
    getDesiredClusterState none = .ok {} ∧
    (stoppedJobCluster.spec.jobSpec = none →
      getDesiredClusterState (some stoppedJobCluster) = .ok {}) :=
  phase_gating_amended stoppedJobCluster (Or.inr rfl)

/-- C2: the FLINK_PROPERTIES blob — and hence the desired manager deployment
— depends on the order in which Go's `range` yields the property map's
entries, which the language leaves unspecified and the runtime randomizes:
the two argument lists below are permutations of each other (the same
two-entry map with distinct keys) yet serialize to different strings, so two
calls to the Converter on the same (spec, phase) need not be byte-for-byte
identical. -/
theorem getFlinkProperties_order_dependent :
    ([("a", "1"), ("b", "2")] : List (String × String)).Perm [("b", "2"), ("a", "1")] ∧
    (([("a", "1"), ("b", "2")] : List (String × String)).map Prod.fst).Nodup ∧
    getFlinkProperties [("a", "1"), ("b", "2")] ≠ getFlinkProperties [("b", "2"), ("a", "1")] ∧
    propsCluster1.spec.flinkProperties.Perm propsCluster2.spec.flinkProperties ∧
    getDesiredJobManagerDeployment propsCluster1 ≠ getDesiredJobManagerDeployment propsCluster2 := by
  refine ⟨?_, ?_, ?_, ?_, ?_⟩
  · decide
  · decide
  · decide
  · decide
  · decide

/-- C3 (counterexample): an unrecognized access-scope value makes
`getDesiredJobManagerService` — and with it the whole desired-state
computation — panic (a process abort); the function's return type has no
error channel, so nothing is surfaced to the caller via status. -/
theorem unknown_accessScope_panics_example :
    getDesiredJobManagerService weirdScopeCluster =
      .panicked "Unknown service access cope: GalacticMesh" ∧
    (getDesiredClusterState (some weirdScopeCluster)).isPanicked = true := by
  exact ⟨by decide, by decide⟩

/-- C3 (amended): for every cluster spec whose manager access-scope holds a
value other than Cluster, VPC or External (phase not Stopping/Stopped, port
pointers set so execution reaches the switch), desired-state computation
panics — aborting the process — with the source's "Unknown service access
cope" message; no configuration error is returned to the caller. -/
theorem unknown_accessScope_panics (c : FlinkCluster)
    (hphase : ¬ stopPhase c)
    (hrpc : c.spec.jobManagerSpec.ports.rpc.isSome = true)
    (hblob : c.spec.jobManagerSpec.ports.blob.isSome = true)
    (hquery : c.spec.jobManagerSpec.ports.query.isSome = true)
    (hui : c.spec.jobManagerSpec.ports.ui.isSome = true)
    (h1 : c.spec.jobManagerSpec.accessScope ≠ AccessScope.Cluster)
    (h2 : c.spec.jobManagerSpec.accessScope ≠ AccessScope.VPC)
    (h3 : c.spec.jobManagerSpec.accessScope ≠ AccessScope.External) :
    getDesiredJobManagerService c =
      .panicked ("Unknown service access cope: " ++ c.spec.jobManagerSpec.accessScope) := by
  obtain ⟨rpc, hrpc'⟩ := Option.isSome_iff_exists.mp hrpc
  obtain ⟨blob, hblob'⟩ := Option.isSome_iff_exists.mp hblob
  obtain ⟨query, hquery'⟩ := Option.isSome_iff_exists.mp hquery
  obtain ⟨ui, hui'⟩ := Option.isSome_iff_exists.mp hui
  unfold getDesiredJobManagerService
  rw [if_neg hphase, hrpc', hblob', hquery', hui']
  simp only [if_neg h1, if_neg h2, if_neg h3]

/-- C3 (amended, witness): the panic at the concrete unrecognized scope. -/
theorem unknown_accessScope_panics_witness :
    getDesiredJobManagerService weirdScopeCluster =
      .panicked ("Unknown service access cope: " ++
        weirdScopeCluster.spec.jobManagerSpec.accessScope) :=
  unknown_accessScope_panics weirdScopeCluster (by decide) rfl rfl rfl rfl
    (by decide) (by decide) (by decide)

/-- C8: the desired manager service maps the access scope as: Cluster →
ClusterIP with no annotation; VPC → LoadBalancer with the GKE internal-only
load-balancer annotation; External → LoadBalancer with no annotation; any
other value panics (a fatal configuration error during desired-state
computation). -/
theorem access_scope_mapping (c : FlinkCluster)
    (hphase : ¬ stopPhase c)
    (hrpc : c.spec.jobManagerSpec.ports.rpc.isSome = true)
    (hblob : c.spec.jobManagerSpec.ports.blob.isSome = true)
    (hquery : c.spec.jobManagerSpec.ports.query.isSome = true)
    (hui : c.spec.jobManagerSpec.ports.ui.isSome = true) :
    (c.spec.jobManagerSpec.accessScope = AccessScope.Cluster →
      serviceTypeOf (getDesiredJobManagerService c) = some serviceTypeClusterIP ∧
      serviceAnnotationsOf (getDesiredJobManagerService c) = some []) ∧
    (c.spec.jobManagerSpec.accessScope = AccessScope.VPC →
      serviceTypeOf (getDesiredJobManagerService c) = some serviceTypeLoadBalancer ∧
      serviceAnnotationsOf (getDesiredJobManagerService c) =
        some [("cloud.google.com/load-balancer-type", "Internal")]) ∧
    (c.spec.jobManagerSpec.accessScope = AccessScope.External →
      serviceTypeOf (getDesiredJobManagerService c) = some serviceTypeLoadBalancer ∧
      serviceAnnotationsOf (getDesiredJobManagerService c) = some []) ∧
    (c.spec.jobManagerSpec.accessScope ≠ AccessScope.Cluster →
      c.spec.jobManagerSpec.accessScope ≠ AccessScope.VPC →
      c.spec.jobManagerSpec.accessScope ≠ AccessScope.External →
      (getDesiredJobManagerService c).isPanicked = true) := by
  obtain ⟨rpc, hrpc'⟩ := Option.isSome_iff_exists.mp hrpc
  obtain ⟨blob, hblob'⟩ := Option.isSome_iff_exists.mp hblob
  obtain ⟨query, hquery'⟩ := Option.isSome_iff_exists.mp hquery
  obtain ⟨ui, hui'⟩ := Option.isSome_iff_exists.mp hui
  unfold getDesiredJobManagerService
  simp only [if_neg hphase, hrpc', hblob', hquery', hui']
  refine ⟨fun hs => ?_, fun hs => ?_, fun hs => ?_, fun n1 n2 n3 => ?_⟩
  · simp +decide [hs, serviceTypeOf, serviceAnnotationsOf]
  · simp +decide [hs, serviceTypeOf, serviceAnnotationsOf]
  · simp +decide [hs, serviceTypeOf, serviceAnnotationsOf]
  · simp only [if_neg n1, if_neg n2, if_neg n3, ConvResult.isPanicked]

/-- C8 (witness): the access-scope mapping at the concrete example cluster
(scope Cluster). -/
theorem access_scope_mapping_witness :
    (exampleCluster.spec.jobManagerSpec.accessScope = AccessScope.Cluster →
      serviceTypeOf (getDesiredJobManagerService exampleCluster) = some serviceTypeClusterIP ∧
      serviceAnnotationsOf (getDesiredJobManagerService exampleCluster) = some []) ∧
    (exampleCluster.spec.jobManagerSpec.accessScope = AccessScope.VPC →
      serviceTypeOf (getDesiredJobManagerService exampleCluster) = some serviceTypeLoadBalancer ∧
      serviceAnnotationsOf (getDesiredJobManagerService exampleCluster) =
        some [("cloud.google.com/load-balancer-type", "Internal")]) ∧
    (exampleCluster.spec.jobManagerSpec.accessScope = AccessScope.External →
      serviceTypeOf (getDesiredJobManagerService exampleCluster) = some serviceTypeLoadBalancer ∧
      serviceAnnotationsOf (getDesiredJobManagerService exampleCluster) = some []) ∧
    (exampleCluster.spec.jobManagerSpec.accessScope ≠ AccessScope.Cluster →
      exampleCluster.spec.jobManagerSpec.accessScope ≠ AccessScope.VPC →
      exampleCluster.spec.jobManagerSpec.accessScope ≠ AccessScope.External →
      (getDesiredJobManagerService exampleCluster).isPanicked = true) :=
  access_scope_mapping exampleCluster (by decide) rfl rfl rfl rfl

/-- The JobManager-deployment getter returns normally iff the phase guard
fires or all four JobManager port pointers are set. -/
theorem isOk_getDesiredJobManagerDeployment (c : FlinkCluster) :
    (getDesiredJobManagerDeployment c).isOk = true ↔
      (stopPhase c ∨
        (c.spec.jobManagerSpec.ports.rpc.isSome = true ∧
         c.spec.jobManagerSpec.ports.blob.isSome = true ∧
         c.spec.jobManagerSpec.ports.query.isSome = true ∧
         c.spec.jobManagerSpec.ports.ui.isSome = true)) := by
  unfold getDesiredJobManagerDeployment
  by_cases h : stopPhase c
  · simp [h, ConvResult.isOk]
  · simp only [if_neg h]
    rcases hrpc : c.spec.jobManagerSpec.ports.rpc with _ | rpc <;>
      rcases hblob : c.spec.jobManagerSpec.ports.blob with _ | blob <;>
        rcases hquery : c.spec.jobManagerSpec.ports.query with _ | query <;>
          rcases hui : c.spec.jobManagerSpec.ports.ui with _ | ui <;>
            simp [ConvResult.isOk, h, hrpc, hblob, hquery, hui]

/-- The JobManager-service getter (for a recognized access scope) returns
normally iff the phase guard fires or all four JobManager port pointers are
set. -/
theorem isOk_getDesiredJobManagerService (c : FlinkCluster)
    (hscope : c.spec.jobManagerSpec.accessScope = AccessScope.Cluster ∨
      c.spec.jobManagerSpec.accessScope = AccessScope.VPC ∨
      c.spec.jobManagerSpec.accessScope = AccessScope.External) :
    (getDesiredJobManagerService c).isOk = true ↔
      (stopPhase c ∨
        (c.spec.jobManagerSpec.ports.rpc.isSome = true ∧
         c.spec.jobManagerSpec.ports.blob.isSome = true ∧
         c.spec.jobManagerSpec.ports.query.isSome = true ∧
         c.spec.jobManagerSpec.ports.ui.isSome = true)) := by
  unfold getDesiredJobManagerService
  by_cases h : stopPhase c
  · simp [h, ConvResult.isOk]
  · simp only [if_neg h]
    rcases hscope with hs | hs | hs <;>
      rcases hrpc : c.spec.jobManagerSpec.ports.rpc with _ | rpc <;>
        rcases hblob : c.spec.jobManagerSpec.ports.blob with _ | blob <;>
          rcases hquery : c.spec.jobManagerSpec.ports.query with _ | query <;>
            rcases hui : c.spec.jobManagerSpec.ports.ui with _ | ui <;>
              simp +decide [ConvResult.isOk, h, hs, hrpc, hblob, hquery, hui]

/-- The TaskManager-deployment getter returns normally iff the phase guard
fires or all three TaskManager port pointers are set. -/
theorem isOk_getDesiredTaskManagerDeployment (c : FlinkCluster) :
    (getDesiredTaskManagerDeployment c).isOk = true ↔
      (stopPhase c ∨
        (c.spec.taskManagerSpec.ports.data.isSome = true ∧
         c.spec.taskManagerSpec.ports.rpc.isSome = true ∧
         c.spec.taskManagerSpec.ports.query.isSome = true)) := by
  unfold getDesiredTaskManagerDeployment
  by_cases h : stopPhase c
  · simp [h, ConvResult.isOk]
  · simp only [if_neg h]
    rcases hdata : c.spec.taskManagerSpec.ports.data with _ | dataP <;>
      rcases hrpc : c.spec.taskManagerSpec.ports.rpc with _ | rpc <;>
        rcases hquery : c.spec.taskManagerSpec.ports.query with _ | query <;>
          simp [ConvResult.isOk, h, hdata, hrpc, hquery]

/-- The job getter returns normally iff every present JobSpec comes with a
set JobManager UI port (for the `--jobmanager` address) and a set restart
policy — regardless of the lifecycle phase. -/
theorem isOk_getDesiredJob (c : FlinkCluster) :
    (getDesiredJob c).isOk = true ↔
      (∀ js, c.spec.jobSpec = some js →
        (c.spec.jobManagerSpec.ports.ui.isSome = true ∧
         js.restartPolicy.isSome = true)) := by
  unfold getDesiredJob
  rcases hjs : c.spec.jobSpec with _ | js
  · simp [ConvResult.isOk, hjs]
  · rcases hui : c.spec.jobManagerSpec.ports.ui with _ | ui
    · simp [ConvResult.isOk, hjs, hui]
    · rcases hrp : js.restartPolicy with _ | rp <;>
        by_cases hct : stringsContains js.jarFile "://" = true <;>
          simp [ConvResult.isOk, hjs, hui, hrp, hct]

/-- The whole desired-state computation returns normally iff each of the
four getters does (a panic in any getter propagates). -/
theorem isOk_getDesiredClusterState (c : FlinkCluster) :
    (getDesiredClusterState (some c)).isOk = true ↔
      ((getDesiredJobManagerDeployment c).isOk = true ∧
       (getDesiredJobManagerService c).isOk = true ∧
       (getDesiredTaskManagerDeployment c).isOk = true ∧
       (getDesiredJob c).isOk = true) := by
  unfold getDesiredClusterState
  rcases h1 : getDesiredJobManagerDeployment c with a1 | m1 <;>
    rcases h2 : getDesiredJobManagerService c with a2 | m2 <;>
      rcases h3 : getDesiredTaskManagerDeployment c with a3 | m3 <;>
        rcases h4 : getDesiredJob c with a4 | m4 <;>
          simp [ConvResult.isOk, h1, h2, h3, h4]

/-- C10 (counterexample): a Stopped cluster with no JobSpec and every
optional port pointer unset — the Converter returns normally (all desired
resources null) instead of aborting, because the Stopping/Stopped guards
return before any pointer is dereferenced; so unset port fields do not make
the Converter abort "for every spec". -/
theorem converter_total_when_stopped_without_ports :
    stoppedBareCluster.spec.jobManagerSpec.ports.rpc = none ∧
    stoppedBareCluster.spec.jobManagerSpec.ports.ui = none ∧
    stoppedBareCluster.spec.taskManagerSpec.ports.data = none ∧
    stoppedBareCluster.spec.jobSpec = none ∧
    getDesiredClusterState (some stoppedBareCluster) = .ok {} := by
  refine ⟨rfl, rfl, rfl, rfl, ?_⟩
  decide

/-- C10 (amended): for a recognized access scope, the Converter is total
exactly under the following precondition.  Outside the Stopping/Stopped
phases it dereferences the four JobManager ports, the three TaskManager
ports and — when a JobSpec is present — the job's restart policy (the
JobManager UI port is among the four), so it returns normally iff all of
those pointers are set.  In the Stopping/Stopped phases the deployment and
service getters return before dereferencing anything, but the job path still
dereferences the JobManager UI port and the restart policy whenever a
JobSpec is present, so the Converter returns normally iff every present
JobSpec comes with both of those set. -/
theorem converter_totality_amended (c : FlinkCluster)
    (hscope : c.spec.jobManagerSpec.accessScope = AccessScope.Cluster ∨
      c.spec.jobManagerSpec.accessScope = AccessScope.VPC ∨
      c.spec.jobManagerSpec.accessScope = AccessScope.External) :
    (¬ stopPhase c →
      ((getDesiredClusterState (some c)).isOk = true ↔
        (c.spec.jobManagerSpec.ports.rpc.isSome = true ∧
         c.spec.jobManagerSpec.ports.blob.isSome = true ∧
         c.spec.jobManagerSpec.ports.query.isSome = true ∧
         c.spec.jobManagerSpec.ports.ui.isSome = true ∧
         c.spec.taskManagerSpec.ports.data.isSome = true ∧
         c.spec.taskManagerSpec.ports.rpc.isSome = true ∧
         c.spec.taskManagerSpec.ports.query.isSome = true ∧
         (∀ js, c.spec.jobSpec = some js → js.restartPolicy.isSome = true)))) ∧
    (stopPhase c →
      ((getDesiredClusterState (some c)).isOk = true ↔
        (∀ js, c.spec.jobSpec = some js →
          (c.spec.jobManagerSpec.ports.ui.isSome = true ∧
           js.restartPolicy.isSome = true)))) := by
  have hkey := (isOk_getDesiredClusterState c).trans
    (and_congr (isOk_getDesiredJobManagerDeployment c)
      (and_congr (isOk_getDesiredJobManagerService c hscope)
        (and_congr (isOk_getDesiredTaskManagerDeployment c)
          (isOk_getDesiredJob c))))
  constructor
  · intro hns
    rw [hkey]
    constructor
    · rintro ⟨h1, h2, h3, h4⟩
      rcases h1 with h1 | ⟨ha, hb, hc, hd⟩
      · exact absurd h1 hns
      · rcases h3 with h3 | ⟨he, hf, hg⟩
        · exact absurd h3 hns
        · exact ⟨ha, hb, hc, hd, he, hf, hg, fun js hjs => (h4 js hjs).2⟩
    · rintro ⟨ha, hb, hc, hd, he, hf, hg, hjob⟩
      exact ⟨Or.inr ⟨ha, hb, hc, hd⟩, Or.inr ⟨ha, hb, hc, hd⟩,
        Or.inr ⟨he, hf, hg⟩, fun js hjs => ⟨hd, hjob js hjs⟩⟩
  · intro hs
    rw [hkey]
    constructor
    · rintro ⟨_, _, _, h4⟩
      exact h4
    · intro hjob
      exact ⟨Or.inl hs, Or.inl hs, Or.inl hs, hjob⟩

/-- C10 (amended, witness): the totality characterization at the concrete
example cluster, whose ports and restart policy are all set. -/
theorem converter_totality_amended_witness :
    (¬ stopPhase exampleCluster →
      ((getDesiredClusterState (some exampleCluster)).isOk = true ↔
        (exampleCluster.spec.jobManagerSpec.ports.rpc.isSome = true ∧
         exampleCluster.spec.jobManagerSpec.ports.blob.isSome = true ∧
         exampleCluster.spec.jobManagerSpec.ports.query.isSome = true ∧
         exampleCluster.spec.jobManagerSpec.ports.ui.isSome = true ∧
         exampleCluster.spec.taskManagerSpec.ports.data.isSome = true ∧
         exampleCluster.spec.taskManagerSpec.ports.rpc.isSome = true ∧
         exampleCluster.spec.taskManagerSpec.ports.query.isSome = true ∧
         (∀ js, exampleCluster.spec.jobSpec = some js →
           js.restartPolicy.isSome = true)))) ∧
    (stopPhase exampleCluster →
      ((getDesiredClusterState (some exampleCluster)).isOk = true ↔
        (∀ js, exampleCluster.spec.jobSpec = some js →
          (exampleCluster.spec.jobManagerSpec.ports.ui.isSome = true ∧
           js.restartPolicy.isSome = true)))) :=
  converter_totality_amended exampleCluster (Or.inl rfl)

/-- String concatenation is associative (destructuring to the underlying
character lists). -/
theorem string_append_assoc (a b c : String) : a ++ b ++ c = a ++ (b ++ c) := by
  rcases a with ⟨a⟩
  rcases b with ⟨b⟩
  rcases c with ⟨c⟩
  show String.mk (a ++ b ++ c) = String.mk (a ++ (b ++ c))
  rw [List.append_assoc]

/-- The manager address the converter builds from the service name equals
the spec's `<cluster>-jobmanager:<uiPort>` form. -/
theorem jobmanager_address_append (s t : String) :
    s ++ "-jobmanager" ++ ":" ++ t = s ++ "-jobmanager:" ++ t := by
  rw [string_append_assoc s]
  rfl

/-- C6: the desired job's argument sequence follows the spec's submission
command line (`specSubmitArgs`), whose jar slot is `specJarPath`: for a jar
reference containing a scheme separator the submitted path is
`/opt/flink/job/` + final path segment and the container environment gains
`FLINK_JOB_JAR_URI` with the original reference appended after the
cluster-spec env vars; without a scheme separator the submitted path is the
original string and the environment is exactly the cluster-spec env vars
(nothing added). -/
theorem jar_rewrite (c : FlinkCluster) (js : JobSpec) (u : Int)
    (hjs : c.spec.jobSpec = some js)
    (hui : c.spec.jobManagerSpec.ports.ui = some u)
    (hrp : js.restartPolicy.isSome = true) :
    jobMainArgs (getDesiredJob c) = some (specSubmitArgs c.metadata.name u js) ∧
    (stringsContains js.jarFile "://" = true →
      specJarPath js.jarFile = "/opt/flink/job/" ++ (stringsSplit js.jarFile "/").getLast! ∧
      jobMainEnv (getDesiredJob c) =
        some (c.spec.envVars ++ [{ name := "FLINK_JOB_JAR_URI", value := js.jarFile }])) ∧
    (stringsContains js.jarFile "://" = false →
      specJarPath js.jarFile = js.jarFile ∧
      jobMainEnv (getDesiredJob c) = some c.spec.envVars) := by
  obtain ⟨rp, hrp'⟩ := Option.isSome_iff_exists.mp hrp
  unfold getDesiredJob
  by_cases hct : stringsContains js.jarFile "://" = true
  · simp [hjs, hui, hrp', hct, jobMainArgs, jobMainEnv, specSubmitArgs, specJarPath,
      jobmanager_address_append]
  · simp [hjs, hui, hrp', hct, jobMainArgs, jobMainEnv, specSubmitArgs, specJarPath,
      jobmanager_address_append]

/-- C6 (witness): the jar rewrite at the concrete remote-jar cluster
(`jarFile = "s3://bucket/path/app.jar"`). -/
theorem jar_rewrite_witness :
    jobMainArgs (getDesiredJob s3JobCluster) =
      some (specSubmitArgs s3JobCluster.metadata.name 8081 s3JobSpec) ∧
    (stringsContains s3JobSpec.jarFile "://" = true →
      specJarPath s3JobSpec.jarFile =
        "/opt/flink/job/" ++ (stringsSplit s3JobSpec.jarFile "/").getLast! ∧
      jobMainEnv (getDesiredJob s3JobCluster) =
        some (s3JobCluster.spec.envVars ++
          [{ name := "FLINK_JOB_JAR_URI", value := s3JobSpec.jarFile }])) ∧
    (stringsContains s3JobSpec.jarFile "://" = false →
      specJarPath s3JobSpec.jarFile = s3JobSpec.jarFile ∧
      jobMainEnv (getDesiredJob s3JobCluster) = some s3JobCluster.spec.envVars) :=
  jar_rewrite s3JobCluster s3JobSpec 8081 rfl rfl rfl

/-- C7: for a JobSpec with the WordCount jar, the WordCount entry class,
parallelism 2 and no savepoint / allow-non-restored-state / logging flags,
the desired job's container argument sequence is exactly the nine-element
sequence of the claim followed by the trailing user arguments. -/
theorem wordcount_args (c : FlinkCluster) (js : JobSpec) (u : Int)
    (hjs : c.spec.jobSpec = some js)
    (hui : c.spec.jobManagerSpec.ports.ui = some u)
    (hjar : js.jarFile = "./examples/batch/WordCount.jar")
    (hcn : js.className = some "org.apache.flink.examples.java.wordcount.WordCount")
    (hpar : js.parallelism = some 2)
    (hsp : js.savepoint = none)
    (hanrs : js.allowNonRestoredState = none)
    (hlog : js.noLoggingToStdout = none)
    (hrp : js.restartPolicy.isSome = true) :
    jobMainArgs (getDesiredJob c) =
      some (["./bin/flink", "run", "--jobmanager",
        c.metadata.name ++ "-jobmanager:" ++ toString u, "--class",
        "org.apache.flink.examples.java.wordcount.WordCount",
        "--parallelism", "2", "./examples/batch/WordCount.jar"] ++ js.args) := by
  obtain ⟨rp, hrp'⟩ := Option.isSome_iff_exists.mp hrp
  have hct : stringsContains "./examples/batch/WordCount.jar" "://" = false := by decide
  unfold getDesiredJob
  simp [hjs, hui, hjar, hcn, hpar, hsp, hanrs, hlog, hrp', hct, jobMainArgs,
    jobmanager_address_append]
  decide

/-- C7 (witness): the argument sequence at the repository's example cluster
(WordCount job, ui port 8081, user args `["--input", "./README.txt"]`). -/
theorem wordcount_args_witness :
    jobMainArgs (getDesiredJob exampleCluster) =
      some (["./bin/flink", "run", "--jobmanager",
        exampleCluster.metadata.name ++ "-jobmanager:" ++ toString (8081 : Int), "--class",
        "org.apache.flink.examples.java.wordcount.WordCount",
        "--parallelism", "2", "./examples/batch/WordCount.jar"] ++ exampleJobSpec.args) :=
  wordcount_args exampleCluster exampleJobSpec 8081 rfl rfl rfl rfl rfl rfl rfl rfl rfl

/-- `applyFlinkJobID` leaves the observed cluster unchanged. -/
@[simp] theorem applyFlinkJobID_cluster (s : ObservedClusterState) (r : Option String) :
    (applyFlinkJobID s r).cluster = s.cluster := by cases r <;> rfl

/-- `applyFlinkJobID` leaves the observed JobManager deployment unchanged. -/
@[simp] theorem applyFlinkJobID_jmDeployment (s : ObservedClusterState) (r : Option String) :
    (applyFlinkJobID s r).jmDeployment = s.jmDeployment := by cases r <;> rfl

/-- `applyFlinkJobID` leaves the observed JobManager service unchanged. -/
@[simp] theorem applyFlinkJobID_jmService (s : ObservedClusterState) (r : Option String) :
    (applyFlinkJobID s r).jmService = s.jmService := by cases r <;> rfl

/-- `applyFlinkJobID` leaves the observed TaskManager deployment unchanged. -/
@[simp] theorem applyFlinkJobID_tmDeployment (s : ObservedClusterState) (r : Option String) :
    (applyFlinkJobID s r).tmDeployment = s.tmDeployment := by cases r <;> rfl

/-- `applyFlinkJobID` leaves the observed job resource unchanged. -/
@[simp] theorem applyFlinkJobID_job (s : ObservedClusterState) (r : Option String) :
    (applyFlinkJobID s r).job = s.job := by cases r <;> rfl

/-- `applyFlinkJobID` leaves the observed job pod unchanged. -/
@[simp] theorem applyFlinkJobID_jobPod (s : ObservedClusterState) (r : Option String) :
    (applyFlinkJobID s r).jobPod = s.jobPod := by cases r <;> rfl

/-- The Flink-job-ID step never returns an error and changes no observed
field other than the job ID. -/
theorem observeFlinkJobIDStep_fields (env : ObserverEnv) (cl : FlinkCluster)
    (s out : ObservedClusterState) (e : Option String) (probed : Bool)
    (h : observeFlinkJobIDStep env cl s = .ok (out, e, probed)) :
    e = none ∧ out.cluster = s.cluster ∧ out.jmDeployment = s.jmDeployment ∧
    out.jmService = s.jmService ∧ out.tmDeployment = s.tmDeployment ∧
    out.job = s.job ∧ out.jobPod = s.jobPod := by
  unfold observeFlinkJobIDStep at h
  repeat' split at h
  all_goals
    first
      | (simp at h
         done)
      | (simp only [ConvResult.ok.injEq, Prod.mk.injEq] at h
         obtain ⟨h1, h2, h3⟩ := h
         subst h1
         subst h2
         subst h3
         simp)

/-- The Flink-job-ID step returns normally whenever the JobManager UI port
pointer is set (the only pointer it can dereference). -/
theorem observeFlinkJobIDStep_ok (env : ObserverEnv) (cl : FlinkCluster)
    (s : ObservedClusterState)
    (hui : cl.spec.jobManagerSpec.ports.ui.isSome = true) :
    (observeFlinkJobIDStep env cl s).isOk = true := by
  unfold observeFlinkJobIDStep
  repeat' split
  all_goals simp_all [ConvResult.isOk]

/-- The Flink-job-ID step probes iff no non-empty job ID is persisted and
the job resource, a pod in an acceptable phase, and the JobManager service
have all been observed. -/
theorem observeFlinkJobIDStep_probed (env : ObserverEnv) (cl : FlinkCluster)
    (s out : ObservedClusterState) (e : Option String) (probed : Bool)
    (h : observeFlinkJobIDStep env cl s = .ok (out, e, probed)) :
    probed = true ↔
      (recordedJobID cl = none ∧ s.job.isSome = true ∧
       (∃ p, s.jobPod = some p ∧ p.status.phase ≠ "Pending" ∧
         p.status.phase ≠ "Unknown") ∧
       s.jmService.isSome = true) := by
  unfold observeFlinkJobIDStep at h
  repeat' split at h
  all_goals
    first
      | (simp at h
         done)
      | (simp only [ConvResult.ok.injEq, Prod.mk.injEq] at h
         obtain ⟨h1, h2, h3⟩ := h
         subst h1
         subst h2
         subst h3
         simp_all [recordedJobID])

/-- The Flink-job-ID step reuses a persisted non-empty job ID verbatim. -/
theorem observeFlinkJobIDStep_recorded (env : ObserverEnv) (cl : FlinkCluster)
    (s out : ObservedClusterState) (e : Option String) (probed : Bool)
    (h : observeFlinkJobIDStep env cl s = .ok (out, e, probed))
    (i : String) (hi : recordedJobID cl = some i) :
    out.flinkJobID = some i ∧ probed = false := by
  unfold observeFlinkJobIDStep at h
  repeat' split at h
  all_goals
    first
      | (simp at h
         done)
      | (simp only [ConvResult.ok.injEq, Prod.mk.injEq] at h
         obtain ⟨h1, h2, h3⟩ := h
         subst h1
         subst h2
         subst h3
         simp_all [recordedJobID])

/-- The Flink-job-ID step finishes without error whenever the UI port
pointer is set. -/
theorem observeFlinkJobIDStep_obsOk (env : ObserverEnv) (cl : FlinkCluster)
    (s : ObservedClusterState)
    (hui : cl.spec.jobManagerSpec.ports.ui.isSome = true) :
    obsOk (observeFlinkJobIDStep env cl s) = true := by
  have hok := observeFlinkJobIDStep_ok env cl s hui
  rcases hres : observeFlinkJobIDStep env cl s with ⟨⟨o, e, p⟩⟩ | m
  · obtain ⟨he, -⟩ := observeFlinkJobIDStep_fields _ _ _ _ _ _ hres
    subst he
    simp [obsOk]
  · rw [hres] at hok
    simp [ConvResult.isOk] at hok

/-- The job-pod step changes no observed field other than the job pod and
the job ID. -/
theorem observeJobPodsStep_fields (env : ObserverEnv) (cl : FlinkCluster)
    (s out : ObservedClusterState) (e : Option String) (probed : Bool)
    (h : observeJobPodsStep env cl s = .ok (out, e, probed)) :
    out.cluster = s.cluster ∧ out.jmDeployment = s.jmDeployment ∧
    out.jmService = s.jmService ∧ out.tmDeployment = s.tmDeployment ∧
    out.job = s.job := by
  unfold observeJobPodsStep at h
  repeat' split at h
  all_goals
    first
      | (simp only [ConvResult.ok.injEq, Prod.mk.injEq] at h
         obtain ⟨h1, h2, h3⟩ := h
         subst h1
         subst h2
         subst h3
         simp)
      | (obtain ⟨-, f1, f2, f3, f4, f5, -⟩ := observeFlinkJobIDStep_fields _ _ _ _ _ _ h
         simp_all)

/-- In an error-free job-pod step, the prober runs iff no non-empty job ID
is persisted, the job resource and the JobManager service were observed, and
the recorded pod's phase is acceptable. -/
theorem observeJobPodsStep_probed (env : ObserverEnv) (cl : FlinkCluster)
    (s out : ObservedClusterState) (probed : Bool)
    (h : observeJobPodsStep env cl s = .ok (out, none, probed)) :
    probed = true ↔
      (recordedJobID cl = none ∧ s.job.isSome = true ∧
       (∃ p, out.jobPod = some p ∧ p.status.phase ≠ "Pending" ∧
         p.status.phase ≠ "Unknown") ∧
       s.jmService.isSome = true) := by
  unfold observeJobPodsStep at h
  repeat' split at h
  all_goals
    first
      | (simp at h
         done)
      | (have hpr := observeFlinkJobIDStep_probed _ _ _ _ _ _ h
         obtain ⟨-, f1, f2, f3, f4, f5, f6⟩ := observeFlinkJobIDStep_fields _ _ _ _ _ _ h
         rw [hpr]
         simp [f2, f3, f5, f6])

/-- An error-free job-pod step reuses a persisted non-empty job ID verbatim
and does not probe. -/
theorem observeJobPodsStep_recorded (env : ObserverEnv) (cl : FlinkCluster)
    (s out : ObservedClusterState) (probed : Bool)
    (h : observeJobPodsStep env cl s = .ok (out, none, probed))
    (i : String) (hi : recordedJobID cl = some i) :
    out.flinkJobID = some i ∧ probed = false := by
  unfold observeJobPodsStep at h
  repeat' split at h
  all_goals
    first
      | (simp at h
         done)
      | exact observeFlinkJobIDStep_recorded _ _ _ _ _ _ h i hi

/-- A job pod recorded by the job-pod step (starting with no recorded pod)
comes from a singleton pod-list answer. -/
theorem observeJobPodsStep_podOrigin (env : ObserverEnv) (cl : FlinkCluster)
    (s out : ObservedClusterState) (e : Option String) (probed : Bool)
    (hp : s.jobPod = none)
    (h : observeJobPodsStep env cl s = .ok (out, e, probed)) :
    ∀ p, out.jobPod = some p → env.jobPods = .found [p] := by
  unfold observeJobPodsStep at h
  repeat' split at h
  all_goals
    first
      | (simp only [ConvResult.ok.injEq, Prod.mk.injEq] at h
         obtain ⟨h1, h2, h3⟩ := h
         subst h1
         subst h2
         subst h3
         intro p hpp
         simp_all)
      | (obtain ⟨-, f1, f2, f3, f4, f5, f6⟩ := observeFlinkJobIDStep_fields _ _ _ _ _ _ h
         intro p hpp
         simp_all)

/-- A list of length at most one is empty or a singleton. -/
theorem length_le_one_shape {α : Type} (l : List α) (h : l.length ≤ 1) :
    l = [] ∨ ∃ a, l = [a] := by
  rcases l with _ | ⟨a, _ | ⟨b, t⟩⟩
  · exact Or.inl rfl
  · exact Or.inr ⟨a, rfl⟩
  · simp at h

/-- The job-pod step finishes without error when the pod-list lookup did not
fail, returned at most one pod, and the UI port pointer is set. -/
theorem observeJobPodsStep_obsOk (env : ObserverEnv) (cl : FlinkCluster)
    (s : ObservedClusterState)
    (hui : cl.spec.jobManagerSpec.ports.ui.isSome = true)
    (hben : env.jobPods.benign = true)
    (hone : podsAtMostOne env = true) :
    obsOk (observeJobPodsStep env cl s) = true := by
  unfold observeJobPodsStep
  repeat' split
  all_goals
    first
      | exact observeFlinkJobIDStep_obsOk _ _ _ hui
      | (simp_all [LookupResult.benign, podsAtMostOne, obsOk]
         done)
      | (simp_all [LookupResult.benign, podsAtMostOne, obsOk]
         rcases length_le_one_shape _ hone with h0 | ⟨p, h1⟩ <;> simp_all)

/-- When the pod-list lookup answered NotFound the job-pod step leaves the
recorded job pod unchanged. -/
theorem observeJobPodsStep_jobPod_notFound (env : ObserverEnv) (cl : FlinkCluster)
    (s out : ObservedClusterState) (e : Option String) (probed : Bool)
    (hnp : env.jobPods = .notFound)
    (h : observeJobPodsStep env cl s = .ok (out, e, probed)) :
    out.jobPod = s.jobPod := by
  unfold observeJobPodsStep at h
  rw [hnp] at h
  exact (observeFlinkJobIDStep_fields _ _ _ _ _ _ h).2.2.2.2.2.2

/-- An error-free pass must have survived the first four lookups; it then
behaves as `observeJob` started from a state whose job-side fields are still
empty and whose cluster/service fields reflect the lookups. -/
theorem observe_ok_chain (env : ObserverEnv) (out : ObservedClusterState)
    (probed : Bool)
    (h : observe env emptyObserved = .ok (out, none, probed)) :
    ∃ s, observeJob env s = .ok (out, none, probed) ∧
      s.job = none ∧ s.jobPod = none ∧ s.flinkJobID = none ∧
      s.cluster = env.cluster.toOption ∧ s.jmService = env.jmService.toOption := by
  unfold observe observeJmDeploymentStep observeJmServiceStep
    observeTmDeploymentStep at h
  repeat' split at h
  all_goals
    first
      | (simp at h
         done)
      | (refine ⟨_, h, rfl, rfl, rfl, ?_, ?_⟩ <;>
          simp_all [LookupResult.toOption, emptyObserved])

/-- `observeJob` changes no observed field other than the job-side ones. -/
theorem observeJob_fields (env : ObserverEnv) (s out : ObservedClusterState)
    (e : Option String) (probed : Bool)
    (h : observeJob env s = .ok (out, e, probed)) :
    out.cluster = s.cluster ∧ out.jmDeployment = s.jmDeployment ∧
    out.jmService = s.jmService ∧ out.tmDeployment = s.tmDeployment := by
  unfold observeJob at h
  repeat' split at h
  all_goals
    first
      | (simp only [ConvResult.ok.injEq, Prod.mk.injEq] at h
         obtain ⟨h1, h2, h3⟩ := h
         subst h1
         subst h2
         subst h3
         simp)
      | (obtain ⟨f1, f2, f3, f4, f5⟩ := observeJobPodsStep_fields _ _ _ _ _ _ h
         simp_all)

/-- When the job-resource lookup answered NotFound, `observeJob` leaves the
recorded job resource unchanged. -/
theorem observeJob_job_notFound (env : ObserverEnv) (s out : ObservedClusterState)
    (e : Option String) (probed : Bool)
    (hnj : env.job = .notFound)
    (h : observeJob env s = .ok (out, e, probed)) :
    out.job = s.job := by
  unfold observeJob at h
  repeat' split at h
  all_goals
    first
      | (simp only [ConvResult.ok.injEq, Prod.mk.injEq] at h
         obtain ⟨h1, h2, h3⟩ := h
         subst h1
         subst h2
         subst h3
         simp)
      | (simp_all
         done)
      | (obtain ⟨-, -, -, -, f5⟩ := observeJobPodsStep_fields _ _ _ _ _ _ h
         simp_all)

/-- When the pod-list lookup answered NotFound, `observeJob` leaves the
recorded job pod unchanged. -/
theorem observeJob_jobPod_notFound (env : ObserverEnv) (s out : ObservedClusterState)
    (e : Option String) (probed : Bool)
    (hnp : env.jobPods = .notFound)
    (h : observeJob env s = .ok (out, e, probed)) :
    out.jobPod = s.jobPod := by
  unfold observeJob at h
  repeat' split at h
  all_goals
    first
      | (simp only [ConvResult.ok.injEq, Prod.mk.injEq] at h
         obtain ⟨h1, h2, h3⟩ := h
         subst h1
         subst h2
         subst h3
         simp)
      | (have hpp := observeJobPodsStep_jobPod_notFound _ _ _ _ _ _ hnp h
         simp_all)

/-- Starting from the post-lookup state, `observeJob` finishes without error
when the job and pod lookups did not fail, at most one pod was returned, and
the UI port of any observed cluster is set. -/
theorem observeJob_obsOk (env : ObserverEnv)
    (hb5 : env.job.benign = true) (hb6 : env.jobPods.benign = true)
    (hone : podsAtMostOne env = true) (hui : uiPresent env = true) :
    obsOk (observeJob env (preState env)) = true := by
  rcases hcl : env.cluster with c | _ | m
  · have hui' : c.spec.jobManagerSpec.ports.ui.isSome = true := by
      simpa [uiPresent, hcl] using hui
    unfold observeJob
    simp only [preState, LookupResult.toOption, hcl]
    rcases hjs : c.spec.jobSpec with _ | js
    · simp [hjs, obsOk]
    · rcases hjob : env.job with j | _ | m
      · simp only [hjs, hjob]
        exact observeJobPodsStep_obsOk _ _ _ hui' hb6 hone
      · simp only [hjs, hjob]
        exact observeJobPodsStep_obsOk _ _ _ hui' hb6 hone
      · rw [hjob] at hb5
        simp [LookupResult.benign] at hb5
  · unfold observeJob
    simp [preState, hcl, LookupResult.toOption, obsOk]
  · unfold observeJob
    simp [preState, hcl, LookupResult.toOption, obsOk]

/-- C4 (counterexample): a cluster whose persisted status records the
non-empty job ID "abc" but whose spec no longer declares a job — `observe`
finishes without error and without probing, yet the recorded identifier is
NOT reused: `observeJob` returns before the job-ID step, so the observed
flinkJobID stays empty; the claim says a recorded identifier is always
reused verbatim. -/
theorem recorded_id_not_reused_without_jobSpec :
    recordedJobID noJobSpecRecordedCluster = some "abc" ∧
    noJobSpecRecordedCluster.spec.jobSpec = none ∧
    obsErr (observe envNoJobSpecRecorded emptyObserved) = none ∧
    obsProbed (observe envNoJobSpecRecorded emptyObserved) = false ∧
    obsFlinkJobID (observe envNoJobSpecRecorded emptyObserved) = none := by
  refine ⟨rfl, rfl, rfl, rfl, rfl⟩

/-- C4 (amended): in an error-free observation pass, when no non-empty job
ID is persisted the prober is invoked iff the job resource was observed,
exactly one job pod was observed with phase neither Pending nor Unknown, and
the manager service was observed; when a non-empty job ID is persisted the
prober is never invoked and — provided the spec still declares a job — the
ID is reused verbatim; when the spec declares no job, observe skips the
job-ID step entirely, so a recorded ID is not copied.  A recorded job pod
always originates from a singleton pod-list answer. -/
theorem probe_gating_amended (env : ObserverEnv) (out : ObservedClusterState)
    (probed : Bool)
    (h : observe env emptyObserved = .ok (out, none, probed)) :
    ((∀ c, out.cluster = some c → recordedJobID c = none) →
      (probed = true ↔
        (out.job.isSome = true ∧
         (∃ p, out.jobPod = some p ∧ p.status.phase ≠ "Pending" ∧
           p.status.phase ≠ "Unknown") ∧
         out.jmService.isSome = true))) ∧
    (∀ c i, out.cluster = some c → recordedJobID c = some i →
      (probed = false ∧
       (c.spec.jobSpec.isSome = true → out.flinkJobID = some i))) ∧
    (∀ p, out.jobPod = some p → env.jobPods = .found [p]) := by
  obtain ⟨s, hs, hsj, hsp, hsf, hscl, hssvc⟩ := observe_ok_chain env out probed h
  unfold observeJob at hs
  split at hs
  · rename_i hclv
    simp only [ConvResult.ok.injEq, Prod.mk.injEq] at hs
    obtain ⟨h1, -, h3⟩ := hs
    subst h1
    subst h3
    refine ⟨fun _ => by simp [hsj], fun c i hc => ?_, fun p hp => ?_⟩
    · rw [hclv] at hc
      exact absurd hc (by simp)
    · rw [hsp] at hp
      exact absurd hp (by simp)
  · rename_i cl hclv
    split at hs
    · rename_i hjsv
      simp only [ConvResult.ok.injEq, Prod.mk.injEq] at hs
      obtain ⟨h1, -, h3⟩ := hs
      subst h1
      subst h3
      refine ⟨fun _ => by simp [hsj], fun c i hc hrec => ?_, fun p hp => ?_⟩
      · refine ⟨rfl, fun hjs2 => ?_⟩
        rw [hclv] at hc
        obtain rfl : cl = c := by simpa using hc
        rw [hjsv] at hjs2
        exact absurd hjs2 (by simp)
      · rw [hsp] at hp
        exact absurd hp (by simp)
    · rename_i js hjsv
      split at hs
      · simp at hs
      · obtain ⟨f1, f2, f3, f4, f5⟩ := observeJobPodsStep_fields _ _ _ _ _ _ hs
        have hoc : out.cluster = some cl := by rw [f1]; simpa using hclv
        have hosvc : out.jmService = s.jmService := by rw [f3]
        have hpo := observeJobPodsStep_podOrigin _ _ _ _ _ _ (by simpa using hsp) hs
        refine ⟨fun hrecnone => ?_, fun c i hc hrec => ?_, hpo⟩
        · have hrc : recordedJobID cl = none := hrecnone cl hoc
          rw [observeJobPodsStep_probed _ _ _ _ _ hs]
          simp [hrc, f5, hosvc]
        · obtain rfl : cl = c := by
            rw [hoc] at hc
            simpa using hc
          obtain ⟨hfl, hpr⟩ := observeJobPodsStep_recorded _ _ _ _ _ hs i hrec
          exact ⟨hpr, fun _ => hfl⟩
      · rename_i j hjv
        obtain ⟨f1, f2, f3, f4, f5⟩ := observeJobPodsStep_fields _ _ _ _ _ _ hs
        have hoc : out.cluster = some cl := by rw [f1]; simpa using hclv
        have hosvc : out.jmService = s.jmService := by rw [f3]
        have hpo := observeJobPodsStep_podOrigin _ _ _ _ _ _ (by simpa using hsp) hs
        refine ⟨fun hrecnone => ?_, fun c i hc hrec => ?_, hpo⟩
        · have hrc : recordedJobID cl = none := hrecnone cl hoc
          rw [observeJobPodsStep_probed _ _ _ _ _ hs]
          simp [hrc, f5, hosvc]
        · obtain rfl : cl = c := by
            rw [hoc] at hc
            simpa using hc
          obtain ⟨hfl, hpr⟩ := observeJobPodsStep_recorded _ _ _ _ _ hs i hrec
          exact ⟨hpr, fun _ => hfl⟩

/-- C4 (amended, witness): the gating at a concrete pass over the example
cluster with recorded job ID "abc" (all other lookups NotFound): the ID is
reused verbatim and the prober is not invoked. -/
theorem probe_gating_amended_witness :
    ((∀ c, (some recordedCluster : Option FlinkCluster) = some c →
        recordedJobID c = none) →
      ((false : Bool) = true ↔
        ((none : Option BatchJob).isSome = true ∧
         (∃ p, (none : Option Pod) = some p ∧ p.status.phase ≠ "Pending" ∧
           p.status.phase ≠ "Unknown") ∧
         (none : Option Service).isSome = true))) ∧
    (∀ c i, (some recordedCluster : Option FlinkCluster) = some c →
      recordedJobID c = some i →
      ((false : Bool) = false ∧
       (c.spec.jobSpec.isSome = true → (some "abc" : Option String) = some i))) ∧
    (∀ p, (none : Option Pod) = some p →
      envRecorded.jobPods = .found [p]) :=
  probe_gating_amended envRecorded
    { cluster := some recordedCluster, flinkJobID := some "abc" } false rfl

/-- C5: when the job-pod list query returns two or more pods (cluster with a
JobSpec observed, no other lookup failing), `observe` returns the
invariant-violation error, records no job pod, and does not probe. -/
theorem observe_multiple_job_pods_error (env : ObserverEnv) (c : FlinkCluster)
    (pods : List Pod)
    (hcl : env.cluster = .found c)
    (hjs : c.spec.jobSpec.isSome = true)
    (hjm : env.jmDeployment.benign = true)
    (hsvc : env.jmService.benign = true)
    (htm : env.tmDeployment.benign = true)
    (hjob : env.job.benign = true)
    (hpods : env.jobPods = .found pods)
    (hlen : 2 ≤ pods.length) :
    obsErr (observe env emptyObserved) =
      some "Exactly one job pod is expected, but found more" ∧
    obsJobPod (observe env emptyObserved) = none ∧
    obsProbed (observe env emptyObserved) = false := by
  obtain ⟨js, hjs'⟩ := Option.isSome_iff_exists.mp hjs
  rcases pods with _ | ⟨p, _ | ⟨q, rest⟩⟩
  · simp at hlen
  · simp at hlen
  · rcases hjmv : env.jmDeployment with d | _ | m <;>
      rcases hsvcv : env.jmService with v | _ | m <;>
        rcases htmv : env.tmDeployment with t | _ | m <;>
          rcases hjobv : env.job with j | _ | m <;>
            simp_all [observe, observeJmDeploymentStep, observeJmServiceStep,
              observeTmDeploymentStep, observeJob, observeJobPodsStep,
              obsErr, obsJobPod, obsProbed, emptyObserved, LookupResult.benign]

/-- C5 (witness): the pod-count invariant at the concrete two-pod
environment. -/
theorem observe_multiple_job_pods_error_witness :
    obsErr (observe envTwoPods emptyObserved) =
      some "Exactly one job pod is expected, but found more" ∧
    obsJobPod (observe envTwoPods emptyObserved) = none ∧
    obsProbed (observe envTwoPods emptyObserved) = false :=
  observe_multiple_job_pods_error envTwoPods exampleCluster
    [examplePod, ({ examplePod with metadata := { ns := "default", name := "dup" } })]
    rfl rfl rfl rfl rfl rfl rfl (by simp)

/-- C9: every NotFound lookup outcome is mapped to an absent field and the
pass continues without error (first conjunct, under the hypotheses that no
lookup fails, at most one pod is listed, and an observed cluster's UI port
is set so the probe cannot panic); any other lookup error aborts the pass
and is returned to the caller (remaining conjuncts, one per lookup in pass
order, each assuming the preceding lookups did not fail and — for the two
job-side lookups — that the observed cluster declares a job, without which
they are not performed). -/
theorem observe_notFound_vs_error (env : ObserverEnv) :
    ((env.cluster.benign = true ∧ env.jmDeployment.benign = true ∧
      env.jmService.benign = true ∧ env.tmDeployment.benign = true ∧
      env.job.benign = true ∧ env.jobPods.benign = true ∧
      podsAtMostOne env = true ∧ uiPresent env = true) →
      (obsOk (observe env emptyObserved) = true ∧
       (env.cluster = .notFound → obsCluster (observe env emptyObserved) = none) ∧
       (∀ c, env.cluster = .found c →
         obsCluster (observe env emptyObserved) = some c) ∧
       (env.jmDeployment = .notFound →
         obsJmDeployment (observe env emptyObserved) = none) ∧
       (∀ d, env.jmDeployment = .found d →
         obsJmDeployment (observe env emptyObserved) = some d) ∧
       (env.jmService = .notFound →
         obsJmService (observe env emptyObserved) = none) ∧
       (∀ v, env.jmService = .found v →
         obsJmService (observe env emptyObserved) = some v) ∧
       (env.tmDeployment = .notFound →
         obsTmDeployment (observe env emptyObserved) = none) ∧
       (∀ t, env.tmDeployment = .found t →
         obsTmDeployment (observe env emptyObserved) = some t) ∧
       (env.job = .notFound → obsJob (observe env emptyObserved) = none) ∧
       (env.jobPods = .notFound → obsJobPod (observe env emptyObserved) = none))) ∧
    (∀ m, env.cluster = .failed m → obsErr (observe env emptyObserved) = some m) ∧
    (∀ m, env.cluster.benign = true → env.jmDeployment = .failed m →
      obsErr (observe env emptyObserved) = some m) ∧
    (∀ m, env.cluster.benign = true → env.jmDeployment.benign = true →
      env.jmService = .failed m → obsErr (observe env emptyObserved) = some m) ∧
    (∀ m, env.cluster.benign = true → env.jmDeployment.benign = true →
      env.jmService.benign = true → env.tmDeployment = .failed m →
      obsErr (observe env emptyObserved) = some m) ∧
    (∀ c m, env.cluster = .found c → c.spec.jobSpec.isSome = true →
      env.jmDeployment.benign = true → env.jmService.benign = true →
      env.tmDeployment.benign = true → env.job = .failed m →
      obsErr (observe env emptyObserved) = some m) ∧
    (∀ c m, env.cluster = .found c → c.spec.jobSpec.isSome = true →
      env.jmDeployment.benign = true → env.jmService.benign = true →
      env.tmDeployment.benign = true → env.job.benign = true →
      env.jobPods = .failed m → obsErr (observe env emptyObserved) = some m) := by
  constructor
  · rintro ⟨hb1, hb2, hb3, hb4, hb5, hb6, hone, hui⟩
    have hchain : observe env emptyObserved = observeJob env (preState env) := by
      rcases h1 : env.cluster with c | _ | m <;>
        rcases h2 : env.jmDeployment with d | _ | m <;>
          rcases h3 : env.jmService with v | _ | m <;>
            rcases h4 : env.tmDeployment with t | _ | m <;>
              simp_all [observe, observeJmDeploymentStep, observeJmServiceStep,
                observeTmDeploymentStep, preState, LookupResult.benign,
                LookupResult.toOption, emptyObserved]
    have hOk : obsOk (observe env emptyObserved) = true := by
      rw [hchain]
      exact observeJob_obsOk env hb5 hb6 hone hui
    rcases hres : observeJob env (preState env) with ⟨⟨o, e, p⟩⟩ | m
    · have he : e = none := by
        rw [hchain, hres] at hOk
        rcases e with _ | msg
        · rfl
        · simp [obsOk] at hOk
      subst he
      obtain ⟨f1, f2, f3, f4⟩ := observeJob_fields _ _ _ _ _ hres
      refine ⟨hOk, ?_, ?_, ?_, ?_, ?_, ?_, ?_, ?_, ?_, ?_⟩
      · intro hx
        rw [hchain, hres]
        simp [obsCluster, f1, preState, LookupResult.toOption, hx]
      · intro c hx
        rw [hchain, hres]
        simp [obsCluster, f1, preState, LookupResult.toOption, hx]
      · intro hx
        rw [hchain, hres]
        simp [obsJmDeployment, f2, preState, LookupResult.toOption, hx]
      · intro d hx
        rw [hchain, hres]
        simp [obsJmDeployment, f2, preState, LookupResult.toOption, hx]
      · intro hx
        rw [hchain, hres]
        simp [obsJmService, f3, preState, LookupResult.toOption, hx]
      · intro v hx
        rw [hchain, hres]
        simp [obsJmService, f3, preState, LookupResult.toOption, hx]
      · intro hx
        rw [hchain, hres]
        simp [obsTmDeployment, f4, preState, LookupResult.toOption, hx]
      · intro t hx
        rw [hchain, hres]
        simp [obsTmDeployment, f4, preState, LookupResult.toOption, hx]
      · intro hx
        have hjn := observeJob_job_notFound _ _ _ _ _ hx hres
        rw [hchain, hres]
        simp [obsJob, hjn, preState]
      · intro hx
        have hpn := observeJob_jobPod_notFound _ _ _ _ _ hx hres
        rw [hchain, hres]
        simp [obsJobPod, hpn, preState]
    · rw [hchain, hres] at hOk
      simp [obsOk] at hOk
  refine ⟨?_, ?_, ?_, ?_, ?_, ?_⟩
  · intro m hm
    simp [observe, hm, obsErr]
  · intro m hb hm
    rcases hcl : env.cluster with c | _ | mm <;>
      simp_all [observe, observeJmDeploymentStep, obsErr, LookupResult.benign]
  · intro m hb1 hb2 hm
    rcases hcl : env.cluster with c | _ | mm <;>
      rcases hjm : env.jmDeployment with d | _ | mm <;>
        simp_all [observe, observeJmDeploymentStep, observeJmServiceStep, obsErr,
          LookupResult.benign]
  · intro m hb1 hb2 hb3 hm
    rcases hcl : env.cluster with c | _ | mm <;>
      rcases hjm : env.jmDeployment with d | _ | mm <;>
        rcases hsv : env.jmService with v | _ | mm <;>
          simp_all [observe, observeJmDeploymentStep, observeJmServiceStep,
            observeTmDeploymentStep, obsErr, LookupResult.benign]
  · intro c m hclf hjsome hb2 hb3 hb4 hjf
    obtain ⟨js, hjs'⟩ := Option.isSome_iff_exists.mp hjsome
    rcases hjm : env.jmDeployment with d | _ | mm <;>
      rcases hsv : env.jmService with v | _ | mm <;>
        rcases htm : env.tmDeployment with t | _ | mm <;>
          simp_all [observe, observeJmDeploymentStep, observeJmServiceStep,
            observeTmDeploymentStep, observeJob, obsErr, LookupResult.benign]
  · intro c m hclf hjsome hb2 hb3 hb4 hb5 hpf
    obtain ⟨js, hjs'⟩ := Option.isSome_iff_exists.mp hjsome
    rcases hjm : env.jmDeployment with d | _ | mm <;>
      rcases hsv : env.jmService with v | _ | mm <;>
        rcases htm : env.tmDeployment with t | _ | mm <;>
          rcases hjv : env.job with j | _ | mm <;>
            simp_all [observe, observeJmDeploymentStep, observeJmServiceStep,
              observeTmDeploymentStep, observeJob, observeJobPodsStep, obsErr,
              LookupResult.benign]

/-- C9 (witness): the all-absent environment — every lookup NotFound — gives
an error-free pass with an absent cluster field. -/
theorem observe_notFound_vs_error_witness :
    obsOk (observe envAllAbsent emptyObserved) = true ∧
    obsCluster (observe envAllAbsent emptyObserved) = none :=
  ⟨((observe_notFound_vs_error envAllAbsent).1
      ⟨rfl, rfl, rfl, rfl, rfl, rfl, rfl, rfl⟩).1,
   ((observe_notFound_vs_error envAllAbsent).1
      ⟨rfl, rfl, rfl, rfl, rfl, rfl, rfl, rfl⟩).2.1 rfl⟩
